import Mathlib

/-!
Verification development for the Paginatto WhatsApp recovery bot
(`main.py`, `offer_rules.py`, `webhook.py`).

The Python service is shallowly embedded: the per-phone conversation
context is a JSON-shaped dictionary (as in the source), the in-memory
context store is explicit state passed through every operation, the
wall clock (`datetime.utcnow`) is an explicit parameter measured in
microseconds since the Unix epoch, and Python's `re` module is embedded
by a small executable regular-expression engine covering exactly the
constructs the source patterns use (literals, classes, alternation,
greedy star/plus/option, word boundary).  Sends through the Z-API
gateway are collected in an output list instead of performing I/O.
-/

namespace Paginatto

/-- Scalar JSON values: the shape of every value a conversation context
or a handler response holds in the source (strings, booleans, `None`;
numbers never reach the routing logic). -/
inductive J where
  | null : J
  | b : Bool → J
  | str : String → J
deriving DecidableEq, Repr

/-- A Python dict with string keys and scalar values, in insertion
order: the conversation context and the handler response dicts. -/
abbrev Dict := List (String × J)

/-- Python truthiness for scalar values
(`None`, `False` and `""` are falsy). -/
def jTruthy : J → Bool
  | J.null => false
  | J.b x => x
  | J.str s => !(s = "")

/-- `d.get(k)`: the binding of `k`, if any (keys are unique by
construction, as in a Python dict). -/
def dictGet (d : Dict) (k : String) : Option J :=
  match d with
  | [] => none
  | (k1, v1) :: rest => if k1 = k then some v1 else dictGet rest k

/-- `d[k] = v`: overwrite in place if the key exists, else append
(Python dicts preserve insertion order). -/
def dictSet (d : Dict) (k : String) (v : J) : Dict :=
  match d with
  | [] => [(k, v)]
  | (k1, v1) :: rest => if k1 = k then (k, v) :: rest else (k1, v1) :: dictSet rest k v

/-- `d.get(k)` coerced through Python truthiness to a string with a
default: `d.get(k) or default` where the stored value is a string. -/
def dictGetStr (d : Dict) (k : String) (dflt : String) : String :=
  match dictGet d k with
  | some (J.str s) => if s = "" then dflt else s
  | _ => dflt

/-- `bool(d.get(k))`. -/
def dictGetTruthy (d : Dict) (k : String) : Bool :=
  match dictGet d k with
  | some v => jTruthy v
  | none => false

/-! ## Python string primitives -/

/-- Python `\s` (ASCII repertoire, which is all the source texts use). -/
def isSpaceChar (c : Char) : Bool :=
  c = ' ' ∨ c = '\t' ∨ c = '\n' ∨ c = '\x0d' ∨ c = '\x0b' ∨ c = '\x0c'

/-- ASCII lowercase letter or digit. -/
def isLowerAlnum (c : Char) : Bool :=
  ('a' ≤ c ∧ c ≤ 'z') ∨ ('0' ≤ c ∧ c ≤ '9')

/-- Word character for `\b` (ASCII `[A-Za-z0-9_]`; the texts the source
matches word boundaries against are ASCII by that point). -/
def isWordChar (c : Char) : Bool :=
  ('a' ≤ c ∧ c ≤ 'z') ∨ ('A' ≤ c ∧ c ≤ 'Z') ∨ ('0' ≤ c ∧ c ≤ '9') ∨ c = '_'

/-- Python `str.lower`, including the accented Latin-1 letters that occur
in the source's messages and catalog. -/
def pyLowerChar (c : Char) : Char :=
  if 'A' ≤ c ∧ c ≤ 'Z' then Char.ofNat (c.toNat + 32)
  else if 'À' ≤ c ∧ c ≤ 'Þ' ∧ c ≠ '×' then Char.ofNat (c.toNat + 32)
  else c

def pyLower (s : String) : String :=
  String.mk (s.toList.map pyLowerChar)

/-- `unidecode` restricted to the character repertoire of this code base:
lowercase accented Latin letters map to their base ASCII letter, other
characters are untouched. -/
def unidecodeChar (c : Char) : Char :=
  if c = 'á' ∨ c = 'à' ∨ c = 'â' ∨ c = 'ã' ∨ c = 'ä' then 'a'
  else if c = 'é' ∨ c = 'è' ∨ c = 'ê' ∨ c = 'ë' then 'e'
  else if c = 'í' ∨ c = 'ì' ∨ c = 'î' ∨ c = 'ï' then 'i'
  else if c = 'ó' ∨ c = 'ò' ∨ c = 'ô' ∨ c = 'õ' ∨ c = 'ö' then 'o'
  else if c = 'ú' ∨ c = 'ù' ∨ c = 'û' ∨ c = 'ü' then 'u'
  else if c = 'ç' then 'c'
  else if c = 'ñ' then 'n'
  else c

def pyUnidecode (s : String) : String :=
  String.mk (s.toList.map unidecodeChar)

def dropLeadingSpaces (cs : List Char) : List Char :=
  cs.dropWhile (fun c => isSpaceChar c)

/-- Python `str.strip()`. -/
def pyStrip (s : String) : String :=
  String.mk ((dropLeadingSpaces ((dropLeadingSpaces s.toList.reverse)).reverse))

def infixOfList (needle : List Char) : List Char → Bool
  | [] => needle.isEmpty
  | c :: rest => needle.isPrefixOf (c :: rest) || infixOfList needle rest

/-- Python `a in b` for strings (substring containment). -/
def pyContains (hay needle : String) : Bool :=
  infixOfList (needle.toList) (hay.toList)

/-- Python `s.startswith(pre)`. -/
def strStarts (s pre : String) : Bool :=
  List.isPrefixOf pre.toList s.toList

/-! ## Wall-clock time

`datetime.utcnow()` values are embedded as microseconds since the Unix
epoch (an `Int`); naive-datetime comparison in Python agrees with the
integer order.  The civil-calendar conversions implement the standard
proleptic-Gregorian day counting so that `isoformat` /
`fromisoformat` behave as in CPython on the formats the bot produces. -/

abbrev Micros := Int

def microsPerMinute : Int := 60000000

def microsPerDay : Int := 86400000000

/-- `now + timedelta(minutes=m)` (`minutes_from_now` in the source). -/
def minutes_from_now (now : Micros) (m : Int) : Micros :=
  now + m * microsPerMinute

/-- Days from civil date (proleptic Gregorian, epoch 1970-01-01). -/
def daysFromCivil (y m d : Int) : Int :=
  let y1 : Int := if m ≤ 2 then y - 1 else y
  let era : Int := Int.fdiv y1 400
  let yoe : Int := y1 - era * 400
  let mp : Int := if m > 2 then m - 3 else m + 9
  let doy : Int := Int.fdiv (153 * mp + 2) 5 + d - 1
  let doe : Int := yoe * 365 + Int.fdiv yoe 4 - Int.fdiv yoe 100 + doy
  era * 146097 + doe - 719468

/-- Civil date from day count (inverse of `daysFromCivil`). -/
def civilFromDays (z0 : Int) : Int × Int × Int :=
  let z : Int := z0 + 719468
  let era : Int := Int.fdiv z 146097
  let doe : Int := z - era * 146097
  let yoe : Int :=
    Int.fdiv (doe - Int.fdiv doe 1460 + Int.fdiv doe 36524 - Int.fdiv doe 146096) 365
  let y : Int := yoe + era * 400
  let doy : Int := doe - (365 * yoe + Int.fdiv yoe 4 - Int.fdiv yoe 100)
  let mp : Int := Int.fdiv (5 * doy + 2) 153
  let d : Int := doy - Int.fdiv (153 * mp + 2) 5 + 1
  let m : Int := if mp < 10 then mp + 3 else mp - 9
  (if m ≤ 2 then y + 1 else y, m, d)

def daysInMonth (y m : Int) : Int :=
  if m = 2 then
    (if Int.emod y 4 = 0 ∧ (Int.emod y 100 ≠ 0 ∨ Int.emod y 400 = 0) then 29 else 28)
  else if m = 4 ∨ m = 6 ∨ m = 9 ∨ m = 11 then 30
  else 31

def padNum (width : Nat) (n : Int) : String :=
  let s := toString n.toNat
  String.mk (List.replicate (width - s.length) '0') ++ s

/-- `datetime.isoformat()`: `YYYY-MM-DDTHH:MM:SS`, with `.ffffff`
appended exactly when the microsecond field is nonzero. -/
def pyIsoformat (t : Micros) : String :=
  let days := Int.fdiv t microsPerDay
  let rem := Int.emod t microsPerDay
  let ymd := civilFromDays days
  let secOfDay := Int.fdiv rem 1000000
  let usec := Int.emod rem 1000000
  let base :=
    padNum 4 ymd.1 ++ "-" ++ padNum 2 ymd.2.1 ++ "-" ++ padNum 2 ymd.2.2 ++ "T" ++
    padNum 2 (Int.fdiv secOfDay 3600) ++ ":" ++
    padNum 2 (Int.emod (Int.fdiv secOfDay 60) 60) ++ ":" ++
    padNum 2 (Int.emod secOfDay 60)
  if usec = 0 then base else base ++ "." ++ padNum 6 usec

def digitVal (c : Char) : Nat := c.toNat - '0'.toNat

def parseDigits (cs : List Char) : Option Nat :=
  if cs = [] then none
  else if cs.all (fun c => c.isDigit) then
    some (cs.foldl (fun acc c => acc * 10 + digitVal c) 0)
  else none

/-- Parse `HH:MM[:SS[.fff|.ffffff]]` to microseconds within the day. -/
def parseTimePart (cs : List Char) : Option Int :=
  match cs with
  | h1 :: h2 :: ':' :: m1 :: m2 :: rest =>
    match parseDigits [h1, h2], parseDigits [m1, m2] with
    | some hh, some mm =>
      if hh ≤ 23 ∧ mm ≤ 59 then
        match rest with
        | [] => some ((hh * 3600 + mm * 60 : Int) * 1000000)
        | ':' :: s1 :: s2 :: rest2 =>
          match parseDigits [s1, s2] with
          | some ss =>
            if ss ≤ 59 then
              match rest2 with
              | [] => some ((hh * 3600 + mm * 60 + ss : Int) * 1000000)
              | '.' :: frac =>
                match parseDigits frac with
                | some f =>
                  if frac.length = 3 then
                    some ((hh * 3600 + mm * 60 + ss : Int) * 1000000 + f * 1000)
                  else if frac.length = 6 then
                    some ((hh * 3600 + mm * 60 + ss : Int) * 1000000 + f)
                  else none
                | none => none
              | _ => none
            else none
          | none => none
        | _ => none
      else none
    | _, _ => none
  | _ => none

/-- `datetime.fromisoformat` on the formats this service can meet:
`YYYY-MM-DD`, optionally followed by a one-character separator and a
time part, with field validation; anything else fails (in the source
the failure is an exception). -/
def fromisoformat (s : String) : Option Micros :=
  match s.toList with
  | y1 :: y2 :: y3 :: y4 :: '-' :: mo1 :: mo2 :: '-' :: d1 :: d2 :: rest =>
    match parseDigits [y1, y2, y3, y4], parseDigits [mo1, mo2], parseDigits [d1, d2] with
    | some y, some mo, some d =>
      if 1 ≤ y ∧ 1 ≤ mo ∧ mo ≤ 12 ∧ 1 ≤ d ∧ (d : Int) ≤ daysInMonth y mo then
        let dayMicros := daysFromCivil y mo d * microsPerDay
        match rest with
        | [] => some dayMicros
        | _sep :: timeCs =>
          match parseTimePart timeCs with
          | some t => some (dayMicros + t)
          | none => none
      else none
    | _, _, _ => none
  | _ => none

/-! ## Regular expressions

Executable engine for the `re` constructs the source patterns use:
character classes, concatenation, alternation, greedy `*`/`+`/`?` and
the word boundary `\b`.  Results are produced in Python's backtracking
order (leftmost position, earlier alternative first, greedy
repetition), so taking the first result of a match mirrors `re.sub`'s
choice of match extent.  Repetition is fuel-bounded; every repeated
sub-pattern in this code base consumes at least one character per
iteration, so fuel `length + 1` is always sufficient. -/

inductive RE where
  | eps : RE
  | cls : Bool → List (Char × Char) → RE
  | cat : RE → RE → RE
  | alt : RE → RE → RE
  | star : RE → RE
  | bnd : RE
deriving Repr

def classMatch (neg : Bool) (rs : List (Char × Char)) (c : Char) : Bool :=
  let m := rs.any (fun p => p.1 ≤ c ∧ c ≤ p.2)
  if neg then !m else m

/-- `\b` holds between a word character and a non-word character (string
ends count as non-word). -/
def atBoundary (p : Option Char) (cs : List Char) : Bool :=
  let prevW := match p with | some c => isWordChar c | none => false
  let nextW := match cs with | c :: _ => isWordChar c | [] => false
  prevW != nextW

/-- Syntactic size of a pattern, used to bound recursion depth. -/
def reSize : RE → Nat
  | RE.eps => 1
  | RE.cls _ _ => 1
  | RE.bnd => 1
  | RE.cat a b2 => reSize a + reSize b2 + 1
  | RE.alt a b2 => reSize a + reSize b2 + 1
  | RE.star r => reSize r + 1

/-- Match `re` at the start of `cs` (`p` is the preceding character, for
`\b`).  Returns the list of `(last consumed char, remaining input)`
pairs for every way the match can end, in backtracking order (greedy
repetition, earlier alternative first).  The recursion is structural on
`fuel` so it reduces in the kernel; every call either descends into a
strict sub-pattern or re-enters a `star` on strictly shorter input, so
the depth is at most `(input length + 1) * (pattern size + 1)` and the
fuel the wrappers below pass is always sufficient. -/
def reMatch : Nat → RE → Option Char → List Char → List (Option Char × List Char)
  | 0, _, _, _ => []
  | fuel + 1, re, p, cs =>
    match re with
    | RE.eps => [(p, cs)]
    | RE.cls neg rs =>
      (match cs with
       | [] => []
       | c :: rest =>
         if classMatch neg rs c then [(some c, rest)]
         else ([] : List (Option Char × List Char)))
    | RE.bnd => if atBoundary p cs then [(p, cs)] else []
    | RE.cat a b2 =>
      (reMatch fuel a p cs).flatMap (fun pr => reMatch fuel b2 pr.1 pr.2)
    | RE.alt a b2 => reMatch fuel a p cs ++ reMatch fuel b2 p cs
    | RE.star r =>
      ((reMatch fuel r p cs).flatMap (fun pr =>
         if pr.2.length < cs.length then reMatch fuel (RE.star r) pr.1 pr.2 else []))
      ++ [(p, cs)]

/-- Fuel that always suffices for `reMatch` on this input. -/
def matchFuel (r : RE) (cs : List Char) : Nat :=
  (cs.length + 1) * (reSize r + 1)

def reSearchAux (fuel : Nat) (r : RE) (p : Option Char) (cs : List Char) : Bool :=
  !(reMatch fuel r p cs).isEmpty ||
    (match cs with
     | [] => false
     | c :: rest => reSearchAux fuel r (some c) rest)

/-- `re.search(pattern, s)` as a Boolean. -/
def reSearch (r : RE) (s : String) : Bool :=
  reSearchAux (matchFuel r s.toList) r none s.toList

/-- `re.fullmatch(pattern, s)` as a Boolean. -/
def reFullmatch (r : RE) (s : String) : Bool :=
  (reMatch (matchFuel r s.toList) r none s.toList).any (fun pr => pr.2.isEmpty)

/-- `re.sub(pattern, repl, s)` for the non-nullable patterns the source
substitutes with: leftmost non-overlapping matches, each taken at the
engine's first (greedy) extent, replaced by the literal `repl`.  The
outer fuel is structural and one unit per consumed character suffices. -/
def reSubGo (fuel : Nat) (mf : Nat) (r : RE) (repl : List Char) (p : Option Char)
    (cs : List Char) : List Char :=
  match fuel with
  | 0 => cs
  | fuel' + 1 =>
    match cs with
    | [] => []
    | c :: rest =>
      match reMatch mf r p (c :: rest) with
      | pr :: _ =>
        if pr.2.length < (c :: rest).length then
          repl ++ reSubGo fuel' mf r repl pr.1 pr.2
        else c :: reSubGo fuel' mf r repl (some c) rest
      | [] => c :: reSubGo fuel' mf r repl (some c) rest

def reSub (r : RE) (repl : String) (s : String) : String :=
  String.mk (reSubGo (s.toList.length + 1) (matchFuel r s.toList) r repl.toList none s.toList)

/-! Pattern constructors. -/

def rchar (c : Char) : RE := RE.cls false [(c, c)]

def rlit (s : String) : RE :=
  s.toList.foldr (fun c acc => RE.cat (rchar c) acc) RE.eps

def raltL : List RE → RE
  | [] => RE.cls false []
  | [r] => r
  | r :: rest => RE.alt r (raltL rest)

def rcatL : List RE → RE
  | [] => RE.eps
  | [r] => r
  | r :: rest => RE.cat r (rcatL rest)

def rset (cs : List Char) : RE := RE.cls false (cs.map (fun c => (c, c)))

def rrange (a b2 : Char) : RE := RE.cls false [(a, b2)]

def ropt (r : RE) : RE := RE.alt r RE.eps

def rplus (r : RE) : RE := RE.cat r (RE.star r)

def spaceChars : List Char := [' ', '\t', '\n', '\x0d', '\x0b', '\x0c']

/-- `\s` -/
def rsp : RE := rset spaceChars

/-- `\S` -/
def rnsp : RE := RE.cls true (spaceChars.map (fun c => (c, c)))

/-- `.` (any character but newline) -/
def rdot : RE := RE.cls true [('\n', '\n')]

/-- `\b` -/
def rb : RE := RE.bnd

/-- `\bword\b` -/
def rw (s : String) : RE := rcatL [rb, rlit s, rb]

/-! ## Text normalization (`normalize_text`) and the pattern tables -/

/-- `_RE_URL = https?://\S+|www\.\S+` -/
def urlRE : RE :=
  raltL [rcatL [rlit "http", ropt (rchar 's'), rlit "://", rplus rnsp],
         rcatL [rlit "www.", rplus rnsp]]

/-- `_RE_MULTICHAR`: `re.sub(r"(.)\1{2,}", r"\1\1", s)` — every run of
three or more identical characters (newline excluded, since `.` does
not match it) collapses to two.  `a` and `b2` track the last two
emitted characters. -/
def collapseAux (a b2 : Option Char) : List Char → List Char
  | [] => []
  | c :: rest =>
    if some c = a ∧ some c = b2 ∧ c ≠ '\n' then collapseAux a b2 rest
    else c :: collapseAux b2 (some c) rest

/-- `_RE_NON_ALNUM = [^a-z0-9]+` with `re.I`, substituted by a space;
replacing each such character by a space is equivalent because the
following `\s+ → " "` collapse merges the runs. -/
def nonAlnumToSpace (c : Char) : Char :=
  if isLowerAlnum c ∨ ('A' ≤ c ∧ c ≤ 'Z') then c else ' '

def splitSpacesGo (cur : List Char) : List Char → List (List Char)
  | [] => [cur.reverse]
  | c :: rest =>
    if isSpaceChar c then cur.reverse :: splitSpacesGo [] rest
    else splitSpacesGo (c :: cur) rest

/-- `re.sub(r"\s+", " ", s).strip()`. -/
def pySquashSpaces (s : String) : String :=
  String.intercalate " "
    (((splitSpacesGo [] s.toList).filter (fun w => w ≠ [])).map String.mk)

/-- `_SYNONYMS`, in table order. -/
def synonymsTable : List (RE × String) :=
  [ (raltL [rw "obg", rw "vlw", rw "valeu"], " obrigado "),
    (raltL [rw "pfv", rw "pls", rw "por favor"], " por favor "),
    (raltL [rcatL [rb, rchar 'q', raltL [rlit "l", rlit "ual"], rb], rw "qual"], " qual "),
    (raltL [rw "nao", rw "n"], " nao "),
    (raltL [rw "sim", rw "yes"], " sim "),
    (raltL [rw "link", rw "checkout", rw "carrinho"], " link ") ]

/-- `normalize_text`: lowercase, strip diacritics, drop URLs, colloquial
synonym substitutions, collapse repeated characters, strip non
alphanumerics to spaces, collapse whitespace. -/
def normalize_text (s : String) : String :=
  let s1 := pyUnidecode (pyLower s)
  let s2 := reSub urlRE " " s1
  let s3 := synonymsTable.foldl (fun acc pr => reSub pr.1 pr.2 acc) s2
  let s4 := String.mk (collapseAux none none s3.toList)
  let s5 := String.mk (s4.toList.map nonAlnumToSpace)
  pySquashSpaces s5

def YES_PATTERNS : List RE :=
  [rw "sim", rw "isso", rw "confirmo", rw "claro", rw "positivo", rw "afirmativo",
   rcatL [rb, rlit "cert", rset ['o', 'a'], rb]]

def NO_PATTERNS : List RE :=
  [rcatL [rb, rchar 'n', rset ['a', 'ã'], rchar 'o', rb], rw "negativo", rw "nope"]

def BOUGHT_PATTERNS : List RE :=
  [rlit "já comprei", rlit "ja comprei", rlit "comprei", rlit "realizei a compra",
   rlit "paguei", rlit "finalizei"]

def QUIT_PATTERNS : List RE :=
  [rlit "desisti", rlit "não vou", rlit "nao vou", rlit "não quero", rlit "nao quero",
   rlit "deixa pra depois"]

def STOP_PATTERNS : List RE :=
  [rw "pare", rw "para", rw "stop", rw "cancelar", rw "cancele",
   rw "sair", rw "remover", rw "excluir", rw "descadastrar",
   rcatL [rchar 'n', rset ['a', 'ã'], rlit "o quero ", raltL [rlit "conversar", rlit "falar"]],
   rcatL [rchar 'n', rset ['a', 'ã'], rlit "o me ",
          raltL [rlit "chame", rlit "incomode", rlit "envie", rlit "mande"]]]

def TRUST_PATTERNS : List RE :=
  [rcatL [rb, rlit "golpe", ropt (rchar 's'), rb],
   rcatL [rb, rlit "fraude", ropt (rchar 's'), rb],
   rw "scam", rw "fake",
   rcatL [rb, rlit "seguran", rset ['ç', 'c'], rchar 'a', rb],
   rcatL [rb, rlit "segur", rset ['a', 'o'], rb],
   rcatL [rb, rlit "confi", rset ['a', 'á'], rlit "vel", rb],
   rcatL [rb, rlit "confian", rset ['ç', 'c'], rchar 'a', rb]]

/-- The `INTENTS` table: an ordered association list, because iteration
order of the Python dict is the classification priority. -/
def INTENTS : List (String × List RE) :=
  [ ("greeting",
      [rcatL [rb, raltL [rlit "oi", rlit "ola", rlit "eai", rlit "boa noite",
                         rlit "boa tarde", rlit "bom dia"], rb]]),
    ("thanks",
      [raltL [rcatL [rb, rlit "obrigad", ropt (rchar 'o'), rb], rw "valeu"]]),
    ("stop",
      [raltL [rw "stop", rcatL [rb, rlit "cancel", raltL [rlit "ar", rlit "e"], rb],
              rw "pare", rw "descadastrar", rw "nao quero"]]),
    ("shipping",
      [rcatL [rb, raltL [rlit "entrega", rlit "frete", rlit "prazo", rlit "chega",
                         rlit "chegada",
                         rcatL [rlit "quando", rplus rsp, rlit "chega"],
                         rcatL [rlit "vai", rplus rsp, rlit "chegar"]], rb],
       rcatL [rb, raltL [rlit "rastreio", rlit "rastreamento",
                         rcatL [rchar 'c', rset ['o', 'ó'], rlit "digo", rplus rsp,
                                rlit "de", rplus rsp, rlit "rastreio"],
                         rlit "correios", rlit "sedex"], rb],
       rcatL [rb, raltL [rcatL [rlit "endere", rset ['c', 'ç'], rchar 'o'],
                         rcatL [rlit "resid", rset ['e', 'ê'], rlit "ncia"],
                         rcatL [rlit "receber", rplus rsp, rlit "em", rplus rsp, rlit "casa"],
                         rcatL [rlit "envio", rplus rsp, rchar 'f', rset ['i', 'í'],
                                rlit "sico"]], rb]]),
    ("payment",
      [rw "pix",
       rcatL [rb, rlit "cart", rset ['a', 'ã'], rchar 'o', rb],
       rcatL [rb, rlit "cr", rset ['e', 'é'], rlit "dito", rb],
       rw "debito",
       rcatL [rb, rlit "parcel"],
       rcatL [rlit "forma", ropt (rchar 's'), rlit " de pagamento"],
       rw "boleto"]),
    ("price",
      [rcatL [rb, raltL [rcatL [rlit "pre", rset ['c', 'ç'], rchar 'o'], rlit "valor",
                         rcatL [rlit "quanto", rplus rsp, rlit "custa"], rlit "qnto"], rb]]),
    ("discount",
      [rcatL [rb, raltL [rlit "desconto", rlit "cupom",
                         rcatL [rlit "promo", rset ['c', 'ç'], rset ['a', 'ã'], rchar 'o'],
                         rlit "oferta"], rb]]),
    ("deadline",
      [rcatL [rb, rlit "at", rset ['é', 'e'], rplus rsp, rlit "quando", rb],
       rcatL [rb, raltL [rcatL [rlit "valid", rset ['a', 'o']], rlit "vence",
                         rcatL [rlit "prazo", rplus rsp, rlit "da", rplus rsp,
                                rlit "promo"]], rb]]),
    ("link",
      [rw "link",
       rcatL [rlit "manda", ropt (rchar 'r'), rplus rsp, ropt (rchar 'o'), RE.star rsp,
              rlit "link"],
       rcatL [rlit "quero", rplus rsp, rlit "comprar"],
       rcatL [rlit "pode", rplus rsp, rlit "aplicar"],
       rcatL [rlit "vamos", rplus rsp, rlit "fechar"]]),
    ("product_info",
      [rcatL [rlit "como", rplus rsp, rlit "funciona"],
       rcatL [rchar 'o', rplus rsp, rlit "que", rplus rsp, rset ['é', 'e']],
       rcatL [rlit "conte", rset ['ú', 'u'], rlit "do"],
       rcatL [rlit "do", rplus rsp, rlit "que", rplus rsp, rlit "se", rplus rsp,
              rlit "trata"]]),
    ("email_missing",
      [rcatL [rchar 'n', rset ['a', 'ã'], rchar 'o', rplus rsp,
              raltL [rlit "recebi", rlit "chegou"], RE.star rdot,
              raltL [rlit "email", rcatL [rchar 'e', ropt (rchar '-'), rlit "mail"],
                     rlit "link"]],
       rcatL [rlit "cad", rset ['ê', 'e'], rplus rsp, rchar 'o', rplus rsp,
              raltL [rlit "email", rcatL [rchar 'e', ropt (rchar '-'), rlit "mail"],
                     rlit "link"]]]),
    ("resend",
      [rcatL [rb, raltL [rlit "reenvia", rlit "reenviar",
                         rcatL [rlit "enviar", rplus rsp, rlit "de", rplus rsp, rlit "novo"],
                         rcatL [rlit "manda", rplus rsp, rlit "de", rplus rsp, rlit "novo"],
                         rcatL [rlit "mandar", rplus rsp, rlit "novamente"]], rb]]),
    ("trust", TRUST_PATTERNS) ]

/-- `matches(text, patterns)`: normalize, then search each pattern
(named `matchesPatterns` here because `matches` is a Lean keyword). -/
def matchesPatterns (text : String) (patterns : List RE) : Bool :=
  let t := normalize_text text
  patterns.any (fun p => reSearch p t)

def legacyYesRE : RE := rcatL [rb, raltL [rlit "sim", rlit "1"], rb]

def legacyNoRE : RE := rcatL [rb, raltL [rlit "nao", rlit "2"], rb]

def legacyBoughtRE : RE :=
  rcatL [rb, raltL [rlit "comprei", rlit "paguei", rlit "finalizei",
                    rlit "pagamento aprovado"], rb]

def legacyQuitRE : RE :=
  rcatL [rb, raltL [rlit "desisti", rlit "nao vou", rlit "depois"], rb]

/-- `detect_intent`: first intent of the ordered `INTENTS` table with a
matching pattern, else the four legacy yes/no/bought/quit checks in
order, else `"unknown"`.  Total by construction — the source never
raises here either. -/
def detect_intent (text : String) : String :=
  let t := normalize_text text
  match INTENTS.find? (fun pr => pr.2.any (fun p => reSearch p t)) with
  | some pr => pr.1
  | none =>
    if reSearch legacyYesRE t then "yes"
    else if reSearch legacyNoRE t then "no"
    else if reSearch legacyBoughtRE t then "bought"
    else if reSearch legacyQuitRE t then "quit"
    else "unknown"

/-- The pattern list registered for an intent in the `INTENTS` table
(empty for an unknown intent name). -/
def intentPatterns (name0 : String) : List RE :=
  match INTENTS.find? (fun pr => pr.1 = name0) with
  | some pr => pr.2
  | none => []

/-- `\bv[1-4]\b|\bvolume\s*[1-4]\b` from `detect_product_key`. -/
def tabibVolRE : RE :=
  raltL [rcatL [rb, rchar 'v', rrange '1' '4', rb],
         rcatL [rb, rlit "volume", RE.star rsp, rrange '1' '4', rb]]

/-- `detect_product_key`: substring/regex scan of the raw lowercased
text for a product family keyword. -/
def detect_product_key (text : String) : Option String :=
  let t := pyLower text
  if pyContains t "tabib" ∨ reSearch tabibVolRE t then some "tabib"
  else if pyContains t "airfryer" ∨ pyContains t "fritadeira" then some "airfryer"
  else if pyContains t "masterchef" ∨ pyContains t "master chef" then some "masterchef"
  else none

/-! ## Catalog -/

structure Item where
  sku : String
  family : String
  typ : String
  name : String
  image : String
  checkout : String
  description : String
  aliases : List String
deriving DecidableEq, Repr

/-- The built-in fallback catalog from `_load_catalog` (no
`CATALOG_JSON` override and no `catalog.json` file configured, so this
is the list the service loads). -/
def rawCatalog : List Item :=
  [ { sku := "TABIB_V1", family := "tabib", typ := "volume",
      name := "Tabib Volume 1: Tratamento de Dores e Inflamações",
      image := "https://paginattoebooks.github.io/Paginatto.site.com.br/img/tabib-1.png",
      checkout := "https://somasoundsolutions.mycartpanda.com/checkout/166919679:1",
      description := "Guia para combater dores de cabeça, musculares e articulares, além de inflamações crônicas.",
      aliases := ["tabib 1", "tabib1", "v1", "volume 1", "inflamacoes", "inflamações",
                  "tratamento de dores", "dores", "dor", "inflamação", "inflamacao"] },
    { sku := "TABIB_V2", family := "tabib", typ := "volume",
      name := "Tabib Volume 2: Saúde Respiratória e Imunidade",
      image := "https://paginattoebooks.github.io/Paginatto.site.com.br/img/tabib-2.png",
      checkout := "https://somasoundsolutions.mycartpanda.com/checkout/166919682:1",
      description := "Focado na saúde respiratória e fortalecimento da imunidade.",
      aliases := ["tabib 2", "tabib2", "v2", "vol 2", "volume 2", "respiratoria",
                  "respiratória", "pulmão", "pulmao", "imunidade", "gripe", "resfriado"] },
    { sku := "TABIB_V3", family := "tabib", typ := "volume",
      name := "Tabib Volume 3: Saúde Digestiva e Metabólica",
      image := "https://paginattoebooks.github.io/Paginatto.site.com.br/img/tabib-3.png",
      checkout := "https://somasoundsolutions.mycartpanda.com/checkout/166919686:1",
      description := "Receitas para equilíbrio digestivo e regulação do metabolismo.",
      aliases := ["tabib 3", "tabib3", "v3", "vol 3", "volume 3", "digestiva",
                  "metabólica", "metabolica", "intestino", "refluxo", "azia"] },
    { sku := "TABIB_V4", family := "tabib", typ := "volume",
      name := "Tabib Volume 4: Saúde Mental e Energética",
      image := "https://paginattoebooks.github.io/Paginatto.site.com.br/img/tabib-4.png",
      checkout := "https://somasoundsolutions.mycartpanda.com/checkout/166919701:1",
      description := "Bem-estar emocional, redução do estresse e aumento da energia.",
      aliases := ["tabib 4", "tabib4", "v4", "vol 4", "volume 4", "saude mental",
                  "saúde mental", "energia", "estresse", "ansiedade", "sono"] },
    { sku := "TABIB_FULL", family := "tabib", typ := "bundle",
      name := "Tabib completo",
      image := "https://paginattoebooks.github.io/Paginatto.site.com.br/img/tabib-completo.png",
      checkout := "https://somasoundsolutions.mycartpanda.com/checkout/184229277:1",
      description := "Coletânea com todos os volumes Tabib.",
      aliases := ["tabib completo", "colecao tabib", "coleção tabib", "bundle tabib",
                  "todos os volumes"] },
    { sku := "TABIB_24_25_BUNDLE", family := "tabib", typ := "bundle",
      name := "Tabib 2025 + Bônus 19,90 + Tabib 2024",
      image := "https://paginattoebooks.github.io/Paginatto.site.com.br/img/tabib-2025-bonus-2024.png",
      checkout := "https://somasoundsolutions.mycartpanda.com/checkout/184229263:1",
      description := "Pacote com as edições 2025 e 2024 (mais de 960 receitas).",
      aliases := ["tabib 2025", "tabib 2024", "tabib pacote", "tabib combo",
                  "tabib 960 receitas", "tabib todos por 19,90", "tabib 19,90"] },
    { sku := "ANTIDOTO", family := "antidoto", typ := "standalone",
      name := "Antídoto - Antídotos indígenas",
      image := "https://paginattoebooks.github.io/Paginatto.site.com.br/img/antidoto.png",
      checkout := "https://somasoundsolutions.mycartpanda.com/checkout/166919637:1",
      description := "Receitas inspiradas em saberes indígenas para antídotos naturais.",
      aliases := ["antidoto", "antídoto", "o livro antidoto", "antidotos indigenas",
                  "antídotos indígenas"] },
    { sku := "KURIMA", family := "kurima", typ := "standalone",
      name := "Kurimã - Óleos essenciais",
      image := "https://paginattoebooks.github.io/Paginatto.site.com.br/img/kurima.png",
      checkout := "https://somasoundsolutions.mycartpanda.com/checkout/166919661:1",
      description := "Guia prático de óleos essenciais com receitas e usos seguros.",
      aliases := ["kurima", "oleos essenciais", "óleos essenciais", "oleo essencial"] },
    { sku := "BALSAMO", family := "balsamo", typ := "standalone",
      name := "Bálsamo - Pomadas naturais",
      image := "https://paginattoebooks.github.io/Paginatto.site.com.br/img/balsamo.png",
      checkout := "https://somasoundsolutions.mycartpanda.com/checkout/166919668:1",
      description := "Fórmulas de pomadas naturais para dores, feridas e inflamações.",
      aliases := ["balsamo", "pomadas naturais", "pomada natural"] },
    { sku := "PRESSAO_ALTA_PLAN", family := "pressao", typ := "standalone",
      name := "Tratamento Natural Personalizado para Pressão Alta",
      image := "https://paginattoebooks.github.io/Paginatto.site.com.br/img/pressao-alta.png",
      checkout := "https://somasoundsolutions.mycartpanda.com/checkout/174502432:1",
      description := "Plano individualizado com alimentação, ervas e exercícios.",
      aliases := ["pressao alta", "hipertensao", "tratamento personalizado", "hipertensão"] },
    { sku := "AIRFRYER_PREMIUM", family := "airfryer", typ := "standalone",
      name := "Airfryer do Chef PREMIUM",
      image := "",
      checkout := "https://somasoundsolutions.mycartpanda.com/checkout/198180560:1",
      description := "Este guia reúne receitas rápidas e variadas — de lanches a refeições completas — todas pensadas para reduzir calorias sem abrir mão do sabor",
      aliases := ["airfryer", "receitas airfryer", "300 receitas", "300 receitas para airfryer"] },
    { sku := "DOCES_SEM_ACUCAR", family := "airfryer", typ := "standalone",
      name := "Doces sem açúcar - MAIS DE 110 RECEITAS",
      image := "",
      checkout := "https://somasoundsolutions.mycartpanda.com/checkout/198181424:1",
      description := "Prepare bolos, mousses, tortas e guloseimas usando adoçantes naturais e combinações equilibradas.",
      aliases := ["airfryer", "receitas airfryer", "Doces sem açúcar",
                  "300 receitas para airfryer", "doces", "sem açúcar"] } ]

/-- `_infer_family`: explicit `family` field (stripped, lowercased) if
truthy, else substring rules on the name, else `"outros"`. -/
def infer_family (fam name0 : String) : String :=
  let f := pyLower (pyStrip fam)
  if f ≠ "" then f
  else
    let n := pyLower name0
    if pyContains n "tabib" then "tabib"
    else if pyContains n "airfryer" then "airfryer"
    else if pyContains n "masterchef" ∨ pyContains n "master chef" then "masterchef"
    else "outros"

def safeTokensGo (cur : List Char) : List Char → List (List Char)
  | [] => [cur.reverse]
  | c :: rest =>
    if isLowerAlnum c then safeTokensGo (c :: cur) rest
    else cur.reverse :: safeTokensGo [] rest

/-- `_safe_tokens`: `re.findall(r"[a-z0-9]+", text.lower())`. -/
def safe_tokens (text : String) : List String :=
  (((safeTokensGo [] (pyLower text).toList)).filter (fun w => w ≠ [])).map String.mk

def volumeScan : List Char → Option String
  | [] => none
  | c :: rest =>
    if List.isPrefixOf "volume".toList (c :: rest) then
      let after := ((c :: rest).drop 6).dropWhile (fun c2 => isSpaceChar c2)
      let digits := after.takeWhile (fun c2 => c2.isDigit)
      if digits ≠ [] then some (String.mk digits) else volumeScan rest
    else volumeScan rest

/-- Group 1 of `re.search(r"volume\s*(\d+)", name.lower())`: the digits
after the leftmost `volume`, or failure. -/
def volume_number (name0 : String) : Option String :=
  volumeScan (pyLower name0).toList

/-- The items after `_index_catalog` ran (it overwrites each item's
`family` with `_infer_family`). -/
def Catalog : List Item :=
  rawCatalog.map (fun it => { it with family := infer_family it.family it.name })

/-- The `AIRFRYER_PREMIUM` catalog item (as indexed), used to
instantiate theorems at a concrete catalog entry. -/
def airfryerPremiumItem : Item :=
  { sku := "AIRFRYER_PREMIUM", family := "airfryer", typ := "standalone",
    name := "Airfryer do Chef PREMIUM", image := "",
    checkout := "https://somasoundsolutions.mycartpanda.com/checkout/198180560:1",
    description := "Este guia reúne receitas rápidas e variadas — de lanches a refeições completas — todas pensadas para reduzir calorias sem abrir mão do sabor",
    aliases := ["airfryer", "receitas airfryer", "300 receitas",
                "300 receitas para airfryer"] }

/-- `CatalogBySKU` (skipping items with a falsy sku, as the source
does; SKUs are unique here so first-match lookup equals the dict). -/
def CatalogBySKU : List (String × Item) :=
  (Catalog.filter (fun it => it.sku ≠ "")).map (fun it => (it.sku, it))

def catalogGet (sku : String) : Option Item :=
  (CatalogBySKU.find? (fun p => p.1 = sku)).map (fun p => p.2)

/-- The alias phrases registered for an item:
`list(set(aliases + [name]))` plus, for the tabib family, the
auto-generated `vN` / `volume N` / `tabib N` short forms.  The Python
`set` order is irrelevant because every token of every phrase maps to
the same SKU. -/
def aliasesFor (it : Item) : List String :=
  (it.aliases ++ [it.name]).dedup ++
    (if it.family = "tabib" then
       match volume_number it.name with
       | some v => ["v" ++ v, "volume " ++ v, "tabib " ++ v]
       | none => []
     else [])

/-- `AliasIndex`: token → SKU.  Each assignment is prepended, so the
first match found is the most recent assignment — exactly the Python
dict's last-writer-wins overwrite. -/
def AliasIndex : List (String × String) :=
  Catalog.foldl
    (fun idx it =>
      if it.sku = "" then idx
      else (aliasesFor it).foldl
        (fun idx2 a => (safe_tokens a).foldl (fun idx3 tok => (tok, it.sku) :: idx3) idx2)
        idx)
    []

def aliasLookup (tok : String) : Option String :=
  (AliasIndex.find? (fun p => p.1 = tok)).map (fun p => p.2)

def famAppend (fi : List (String × List String)) (fam sku : String) :
    List (String × List String) :=
  if fi.any (fun p => p.1 = fam) then
    fi.map (fun p => if p.1 = fam then (p.1, p.2 ++ [sku]) else p)
  else fi ++ [(fam, [sku])]

/-- `FamilyIndex`: family → SKUs in catalog order. -/
def FamilyIndex : List (String × List String) :=
  Catalog.foldl (fun fi it => if it.sku = "" then fi else famAppend fi it.family it.sku) []

/-- `get_full_desc`: of the probed keys only `description` exists on a
catalog item, so this is its stripped value (empty when blank). -/
def get_full_desc (it : Item) : String :=
  pyStrip it.description

def describe_item (it : Item) : String :=
  let desc := get_full_desc it
  if desc ≠ "" then "*" ++ it.name ++ "*\n" ++ desc else "*" ++ it.name ++ "*"

def dedupBySkuGo (seen : List String) : List Item → List Item
  | [] => []
  | it :: rest =>
    if seen.contains it.sku then dedupBySkuGo seen rest
    else it :: dedupBySkuGo (it.sku :: seen) rest

/-- `find_by_text`: alias-index hits per token in token order; if none
and the text has tokens, the all-tokens-substring-of-name fallback over
the whole catalog; deduplicated by SKU keeping first-seen order. -/
def find_by_text (text : String) : List Item :=
  let toks := safe_tokens text
  let hits := toks.foldl
    (fun acc t =>
      match aliasLookup t with
      | some sku =>
        (match catalogGet sku with
         | some it2 => acc ++ [it2]
         | none => acc)
      | none => acc)
    []
  let hits2 :=
    if hits = [] ∧ toks ≠ [] then
      Catalog.filter (fun it2 => toks.all (fun tok => pyContains (pyLower it2.name) tok))
    else hits
  dedupBySkuGo [] hits2

/-- The item contributed by one token of `find_by_text`: its alias-index
SKU resolved through `CatalogBySKU`. -/
def aliasHitItem (t : String) : Option Item :=
  (aliasLookup t).bind (fun sku => catalogGet sku)

/-- The SKU of the first token of a token list that hits the alias
index (and resolves in the catalog) — the token whose item
`find_by_text` returns first. -/
def firstAliasHit : List String → Option String
  | [] => none
  | t :: rest =>
    match aliasLookup t with
    | some sku => if (catalogGet sku).isSome then some sku else firstAliasHit rest
    | none => firstAliasHit rest

def menu_tabib_text : String :=
  let vols := ["TABIB_V1", "TABIB_V2", "TABIB_V3", "TABIB_V4"].foldl
    (fun acc v => match catalogGet v with | some it => acc ++ [it.name] | none => acc) []
  let numbered := ((List.range vols.length).zip vols).map
    (fun p => toString (p.1 + 1) ++ ") " ++ p.2)
  let opt5 :=
    if (catalogGet "TABIB_24_25_BUNDLE").isSome then catalogGet "TABIB_24_25_BUNDLE"
    else if (catalogGet "TABIB_FULL").isSome then catalogGet "TABIB_FULL"
    else none
  let lines :=
    match opt5 with
    | some it => numbered ++ ["5) " ++ it.name]
    | none => numbered
  "Temos estas opções do *Tabib*: \n" ++ String.intercalate "\n" lines ++
    "\nResponda com o número (1–5) ou diga, por ex., \x27v3\x27 / \x27volume 3\x27."

def tabib_unitarios_list_text : String :=
  let step := ["TABIB_V1", "TABIB_V2", "TABIB_V3", "TABIB_V4"].foldl
    (fun (p : List String × Nat) sku =>
      match catalogGet sku with
      | some it => (p.1 ++ [toString p.2 ++ ") " ++ it.name], p.2 + 1)
      | none => p)
    ([], 1)
  if step.1 = [] then "Ainda não tenho os volumes unitários cadastrados."
  else
    "Esses são os *volumes unitários* do Tabib:\n" ++ String.intercalate "\n" step.1 ++
      "\n\nResponda com o número (ex.: 2) ou com o volume (ex.: v2)."

/-- `pick_family_item`: item of the first SKU registered for the
family. -/
def pick_family_item (fam : String) : Option Item :=
  let f := pyLower fam
  match (FamilyIndex.find? (fun p => p.1 = f)).map (fun p => p.2) with
  | some (sku :: _) => catalogGet sku
  | _ => none

/-- `find_tabib_choice_by_number`: `re.fullmatch(r"[1-5]", num)` and the
fixed position → SKU mapping (5 resolves to the 2024+2025 bundle if
present, else the complete collection). -/
def find_tabib_choice_by_number (num : String) : Option Item :=
  if reFullmatch (rrange '1' '5') num then
    let sku :=
      if num = "1" then "TABIB_V1"
      else if num = "2" then "TABIB_V2"
      else if num = "3" then "TABIB_V3"
      else if num = "4" then "TABIB_V4"
      else if (catalogGet "TABIB_24_25_BUNDLE").isSome then "TABIB_24_25_BUNDLE"
      else "TABIB_FULL"
    catalogGet sku
  else none

/-! ## Offer rules (`offer_rules.py`) -/

def classify_product (name0 : String) : String :=
  let n := pyLower name0
  if pyContains n "tabib" then "tabib"
  else if pyContains n "airfryer" ∨ pyContains n "air fryer" ∨
          (pyContains n "air" ∧ pyContains n "fry") then "airfryer"
  else if pyContains n "bundle" ∨ pyContains n "combo" ∨ pyContains n "kit" ∨
          pyContains n "pacote" then "bundle"
  else "generic"

def build_offer (product_name : String) : String × String :=
  let p := classify_product product_name
  if p = "tabib" then ("Cupom TABIB10 liberado", "R$10 off hoje. Link válido por 60 min.")
  else if p = "airfryer" then ("Bônus Air Fryer", "Ganhe 20 receitas bônus por 60 min.")
  else if p = "bundle" then
    ("Upgrade para Combo -25%", "Aplique agora e garanta 25% off no combo.")
  else ("Condição especial", "Desconto relâmpago ativo por 60 min.")

/-- `build_offer_ext` (bundle variant prepends the 19,90 line for
tabib). -/
def build_offer_ext (product_or_key : String) (bundle : Bool) : String × String :=
  let k := pyLower product_or_key
  let base_name :=
    if k = "tabib" then "Tabib"
    else if k = "airfryer" then "300 receitas para AirFryer"
    else if k = "masterchef" then "MasterChef"
    else product_or_key
  let pr := build_offer base_name
  if k = "tabib" ∧ bundle then
    (pr.1, "Todos os e-books do Tabib de R$ 49,90 por **R$ 19,90** hoje.\n" ++ pr.2)
  else pr

/-! ## Branding / environment defaults

The service reads these from the environment with the following
defaults; the embedding fixes them at the defaults. -/

def ASSISTANT_NAME : String := "Iara"

def BRAND_NAME : String := "Paginatto"

def SITE_URL : String := "https://paginattoebooks.github.io/Paginatto.site.com.br/"

def LEGAL_NAME : String := "PAGINATTO"

def LEGAL_CNPJ : String := "57.941.903/0001-94"

def OFFER_TTL_MIN : Int := 60

/-! ## Phone normalization and the context store -/

/-- `normalize_phone`: keep the digits; a leading `55` is returned
as-is, otherwise `55` is prepended when at least 10 digits remain, and
anything shorter fails. -/
def normalize_phone (raw : Option String) : Option String :=
  match raw with
  | none => none
  | some r =>
    if r = "" then none
    else
      let s := String.mk (r.toList.filter (fun c => c.isDigit))
      if strStarts s "55" then some s
      else if s.length ≥ 10 then some ("55" ++ s)
      else none

def ttl_seconds (minutes : Int) : Int := minutes * 60

/-- The process-local fallback store `_MEM`: key → (expiry instant,
stored context).  The source stores `json.dumps(ctx)` and parses it
back on read; serialization is embedded at the JSON-value level, where
the dumps/loads round trip is the identity.  Assignments are prepended
and lookups take the first match, which models the dict overwrite. -/
abbrev Mem := List (String × (Micros × Dict))

/-- `store_ctx` on the fallback path (the primary store unconfigured or
unreachable): `_MEM[key] = (now + timedelta(minutes), data)`. -/
def store_ctx (now : Micros) (mem : Mem) (phone : String) (ctx : Dict) (minutes : Int) :
    Mem :=
  ("ctx:" ++ phone, (minutes_from_now now minutes, ctx)) :: mem

/-- `read_ctx` on the fallback path: a present, unexpired entry is
returned; an expired entry is popped and `None` is returned. -/
def read_ctx (now : Micros) (mem : Mem) (phone : String) : Option Dict × Mem :=
  let key := "ctx:" ++ phone
  match mem.find? (fun e => e.1 = key) with
  | none => (none, mem)
  | some e =>
    if now > e.2.1 then (none, mem.filter (fun e2 => e2.1 ≠ key))
    else (some e.2.2, mem)

/-- `clear_ctx` on the fallback path: `_MEM.pop(key, None)`. -/
def clear_ctx (mem : Mem) (phone : String) : Mem :=
  mem.filter (fun e => e.1 ≠ "ctx:" ++ phone)

/-! ## Offer/stage helpers -/

/-- `set_checkout_stage`: stage becomes `"checkout"`, the expiry stamp
is `now + minutes` in ISO format, `reminded` is coerced through
`ctx.get("reminded") or False`. -/
def set_checkout_stage (now : Micros) (ctx : Dict) (minutes : Int) : Dict :=
  let c1 := dictSet ctx "stage" (J.str "checkout")
  let c2 := dictSet c1 "offer_expires_at"
    (J.str (pyIsoformat (minutes_from_now now minutes)))
  let remOld :=
    match dictGet c2 "reminded" with
    | some v => if jTruthy v then v else J.b false
    | none => J.b false
  dictSet c2 "reminded" remOld

/-- `offer_expired`: a falsy stamp is not expired; a string stamp is
parsed and compared to now; a parse failure (or a truthy non-string
value, whose parse raises) is swallowed to `False`. -/
def offer_expired (now : Micros) (ctx : Dict) : Bool :=
  match dictGet ctx "offer_expires_at" with
  | some (J.str s) =>
    if s = "" then false
    else
      match fromisoformat s with
      | some t => now > t
      | none => false
  | _ => false

/-! ## Intent handler (`handle_intent`)

Async I/O is embedded as data: every `zapi_send_text` call is collected
in `sends` (the send's own HTTP result is ignored by all callers), the
store is threaded through `mem`, and the returned response dict is
`resp`. -/

structure BotResult where
  sends : List (String × String)
  mem : Mem
  resp : Dict
deriving DecidableEq, Repr

def okResp : Dict := [("ok", J.b true)]

/-- Field `k` of the context most recently stored by a handler (the
head of the store after the call). -/
def storedGet (r : BotResult) (k : String) : Option J :=
  match r.mem with
  | [] => none
  | e :: _ => dictGet e.2.2 k

/-- The prompt sent when branching into the Tabib menu (identical
literal in `handle_intent` and `route_stage`). -/
def tabibMainPrompt : String :=
  "Perfeito! Para o Tabib, prefere:\n1) **Todos** os e-books por 19,90\n2) Ver **unitários**\n3) Voltar"

def handle_intent (now : Micros) (mem : Mem) (phone : String) (ctx : Dict) (text : String)
    (intent : String) : BotResult :=
  let name := dictGetStr ctx "name" ""
  let product_name := dictGetStr ctx "product_name" ""
  let flow := dictGetStr ctx "flow" "unknown"
  let items := find_by_text text
  match items with
  | it :: _ =>
    if it.family = "tabib" ∧ strStarts it.sku "TABIB_V" then
      let msg := describe_item it ++ "\n\nQuer ver *todos* por 19,90 ou *unitários*?"
      let ctx2 := dictSet (dictSet (dictSet (dictSet ctx "stage" (J.str "tabib_menu"))
        "tabib_bundle" (J.b false)) "asked" (J.str "tabib_after_desc"))
        "last_item_sku" (J.str it.sku)
      { sends := [(phone, msg)], mem := store_ctx now mem phone ctx2 180, resp := okResp }
    else
      let pr := build_offer it.name
      let link := if it.checkout ≠ "" then it.checkout else dictGetStr ctx "checkout_url" ""
      let ctx2 := set_checkout_stage now ctx OFFER_TTL_MIN
      { sends := [(phone, describe_item it ++ "\n\n" ++ pr.1 ++ "\n" ++ pr.2 ++
          "\n\nLink para concluir: " ++ link)],
        mem := store_ctx now mem phone ctx2 180, resp := okResp }
  | [] =>
    match detect_product_key text with
    | some pk =>
      let ctx1 := dictSet (dictSet ctx "selected_product" (J.str pk)) "product_key" (J.str pk)
      if pk = "tabib" then
        let ctx2 := dictSet (dictSet (dictSet ctx1 "stage" (J.str "tabib_menu"))
          "tabib_bundle" (J.b false)) "asked" (J.str "tabib_main")
        { sends := [(phone, tabibMainPrompt)],
          mem := store_ctx now mem phone ctx2 180, resp := okResp }
      else
        match pick_family_item pk with
        | some it =>
          let pr := build_offer it.name
          let link := if it.checkout ≠ "" then it.checkout else dictGetStr ctx1 "checkout_url" ""
          let ctx2 := set_checkout_stage now ctx1 OFFER_TTL_MIN
          { sends := [(phone, describe_item it ++ "\n\n" ++ pr.1 ++ "\n" ++ pr.2 ++
              "\n\nLink para concluir: " ++ link)],
            mem := store_ctx now mem phone ctx2 180, resp := okResp }
        | none =>
          let pr := build_offer_ext pk false
          { sends := [(phone, pr.1 ++ "\n" ++ pr.2 ++ "\n\nAcesse: " ++ SITE_URL)],
            mem := mem, resp := okResp }
    | none =>
      if intent = "stop" ∨ intent = "quit" then
        { sends := [(phone,
            "Entendido. Vou encerrar por aqui. 🙏 Se mudar de ideia, é só chamar. Boa semana!")],
          mem := clear_ctx mem phone, resp := okResp }
      else if intent = "bought" then
        { sends := [(phone,
            "Obrigada pela compra! 🎉 Qualquer dúvida, estamos à disposição por aqui.")],
          mem := clear_ctx mem phone, resp := okResp }
      else if intent = "trust" then
        let msg :=
          "Entendo sua preocupação. Pode ficar tranquilo(a)! Somos a *" ++ LEGAL_NAME ++
          "* (CNPJ **" ++ LEGAL_CNPJ ++ "**) — empresa real, produto **100% digital (PDF)**" ++
          " e entrega garantida no seu e-mail após aprovação. Se preferir, posso enviar o" ++
          " link por aqui também. Qualquer dúvida, é só falar. 🙂"
        { sends := [(phone, msg)],
          mem := store_ctx now mem phone (dictSet ctx "asked" J.null) 180, resp := okResp }
      else if intent = "shipping" then
        let msg :=
          "Nosso produto é **100% digital (PDF/e-book)** — não existe frete, rastreio ou" ++
          " envio físico.\nAssim que o pagamento é aprovado, você recebe o **link de" ++
          " download** no e-mail cadastrado e, se preferir, posso enviar por aqui também." ++
          " Quer que eu envie por aqui?"
        { sends := [(phone, msg)],
          mem := store_ctx now mem phone (dictSet ctx "asked" (J.str "resend_link")) 180,
          resp := okResp }
      else if intent = "payment" then
        let msg :=
          "Aceitamos **PIX** e **cartão** (com parcelamento). Por ser digital, a liberação" ++
          " é **imediata** após aprovação. Prefere pagar via PIX ou cartão?"
        { sends := [(phone, msg)], mem := store_ctx now mem phone ctx 180, resp := okResp }
      else if intent = "price" ∨ intent = "discount" ∨ intent = "deadline" then
        let pr := build_offer (if product_name = "" then "seu produto" else product_name)
        let extra :=
          if intent = "deadline" then "\n*Validade:* promoções podem ser por tempo limitado."
          else ""
        { sends := [(phone, pr.1 ++ "\n" ++ pr.2 ++ extra ++
            "\nQuer que eu gere o link com a condição?")],
          mem := store_ctx now mem phone (dictSet ctx "asked" (J.str "apply_offer")) 180,
          resp := okResp }
      else if intent = "link" then
        let msg :=
          "Perfeito, " ++ name ++ ". Você pode comprar pelo nosso site: " ++ SITE_URL ++
          "\nVocê pode conferir no nosso site e qualquer dúvida que você tiver, você pode" ++
          " me falar. 😉"
        { sends := [(phone, msg)], mem := store_ctx now mem phone ctx 180, resp := okResp }
      else if intent = "product_info" then
        let msg :=
          "O *" ++ (if product_name = "" then "produto" else product_name) ++
          "* é um material digital (PDF) com conteúdo prático para aplicar hoje mesmo." ++
          " Se quiser, te envio um resumo e você pode conferir também no site: " ++ SITE_URL
        { sends := [(phone, msg)], mem := store_ctx now mem phone ctx 180, resp := okResp }
      else if intent = "email_missing" then
        let msg :=
          "Se o pagamento já foi aprovado e o e-mail não chegou, confira" ++
          " *Spam/Lixo/Promoções*. Se preferir, posso **reencaminhar** o link por aqui." ++
          " Quer que eu envie agora?"
        { sends := [(phone, msg)],
          mem := store_ctx now mem phone (dictSet ctx "asked" (J.str "resend_link")) 180,
          resp := okResp }
      else if intent = "resend" then
        { sends := [(phone, "Claro! Posso mandar o link por aqui mesmo. Quer que eu envie agora?")],
          mem := store_ctx now mem phone (dictSet ctx "asked" (J.str "resend_link")) 180,
          resp := okResp }
      else if intent = "greeting" then
        let msg :=
          if !dictGetTruthy ctx "confirmed_owner" then
            "Oi, aqui é " ++ ASSISTANT_NAME ++ " da " ++ BRAND_NAME ++ ". Como posso ajudar?"
          else "Oi! 😊 Como posso ajudar você a finalizar?"
        { sends := [(phone, msg)], mem := store_ctx now mem phone ctx 180, resp := okResp }
      else if intent = "thanks" then
        { sends := [(phone, "Imagina! Qualquer coisa é só chamar. 🙌")],
          mem := store_ctx now mem phone ctx 180, resp := okResp }
      else if intent = "unknown" then
        { sends := [(phone, "Não entendi, pode me dizer novamente?")],
          mem := store_ctx now mem phone ctx 180, resp := okResp }
      else
        let msg :=
          if flow = "pix_pending" then
            "Detectei um PIX pendente de *" ++
            (if product_name = "" then "seu pedido" else product_name) ++
            "*. Quer que eu reenvie o QR/link agora?"
          else
            "Posso te ajudar a concluir *" ++
            (if product_name = "" then "seu pedido" else product_name) ++
            "*. Se quiser, já pode conferir e comprar pelo nosso site: " ++ SITE_URL ++
            "\nOu me diga qual dúvida você tem. 🙂"
        { sends := [(phone, msg)], mem := store_ctx now mem phone ctx 180, resp := okResp }

/-! ## Stage router (`route_stage`) -/

/-- `is_option(text, *options)`: exact membership of the stripped,
lowercased text. -/
def is_option (text : String) (options : List String) : Bool :=
  options.contains (pyLower (pyStrip text))

/-- `\b(todos|bundle|pacote|19[,\.]?90)\b` -/
def todosRE : RE :=
  rcatL [rb, raltL [rlit "todos", rlit "bundle", rlit "pacote",
                    rcatL [rlit "19", ropt (rset [',', '.']), rlit "90"]], rb]

/-- `\bunit[aá]ri[oa]s?\b` -/
def unitRE : RE :=
  rcatL [rb, rlit "unit", rset ['a', 'á'], rlit "ri", rset ['o', 'a'], ropt (rchar 's'), rb]

/-- `\s*[1-5]\s*` (used under `re.fullmatch`) -/
def digit15SpacedRE : RE :=
  rcatL [RE.star rsp, rrange '1' '5', RE.star rsp]

/-- The offer message of the tabib-menu branches:
`{describe_item}\n\n{headline}\n{detail}\n\nLink para concluir: {link}`. -/
def offerLinkMsg (it : Item) (link : String) : String :=
  let pr := build_offer it.name
  describe_item it ++ "\n\n" ++ pr.1 ++ "\n" ++ pr.2 ++ "\n\nLink para concluir: " ++ link

/-- The checkout link of an item, `it.get("checkout") or
ctx.get("checkout_url", "")`. -/
def itemLink (it : Item) (ctx : Dict) : String :=
  if it.checkout ≠ "" then it.checkout else dictGetStr ctx "checkout_url" ""

/-- The `stage == "tabib_menu"` body of `route_stage`: sequential
attempts keyed by the `asked` sub-state, each returning when it fires,
with the bare 1–5 digit resolution and a clarifying fallback at the
bottom. -/
def routeTabibMenu (now : Micros) (mem : Mem) (phone : String) (ctx : Dict) (text : String)
    (tlow : String) : BotResult :=
  let asked := dictGetStr ctx "asked" ""
  let bundleItem :=
    match catalogGet "TABIB_24_25_BUNDLE" with
    | some it => some it
    | none => catalogGet "TABIB_FULL"
  if asked = "tabib_main" ∧ ["1", "todos", "bundle", "pacote"].contains tlow ∧
      bundleItem.isSome then
    match bundleItem with
    | some it =>
      let ctx2 := dictSet (set_checkout_stage now ctx OFFER_TTL_MIN) "asked" J.null
      { sends := [(phone, offerLinkMsg it (itemLink it ctx))],
        mem := store_ctx now mem phone ctx2 180, resp := okResp }
    | none => { sends := [], mem := mem, resp := okResp }
  else if asked = "tabib_main" ∧ ["2", "unitario", "unitarios", "unitários"].contains tlow then
    { sends := [(phone, tabib_unitarios_list_text)],
      mem := store_ctx now mem phone (dictSet ctx "asked" (J.str "tabib_pick_unit")) 180,
      resp := okResp }
  else if asked = "tabib_main" ∧ ["3", "voltar", "back"].contains tlow then
    let ctx2 := dictSet (dictSet ctx "stage" (J.str "pick_product")) "asked" J.null
    { sends := [(phone, "Ok! Qual produto você quer ver agora?")],
      mem := store_ctx now mem phone ctx2 180, resp := okResp }
  else if asked = "tabib_after_desc" then
    let lastIt :=
      match dictGet ctx "last_item_sku" with
      | some (J.str sku) => if sku ≠ "" then catalogGet sku else none
      | _ => none
    if detect_intent text = "link" ∧ lastIt.isSome then
      match lastIt with
      | some it =>
        let pr := build_offer it.name
        let ctx2 := set_checkout_stage now ctx OFFER_TTL_MIN
        { sends := [(phone, pr.1 ++ "\n" ++ pr.2 ++ "\n\nLink para concluir: " ++
            itemLink it ctx)],
          mem := store_ctx now mem phone ctx2 180, resp := okResp }
      | none => { sends := [], mem := mem, resp := okResp }
    else if reSearch todosRE tlow ∧ bundleItem.isSome then
      match bundleItem with
      | some it =>
        let ctx2 := set_checkout_stage now ctx OFFER_TTL_MIN
        { sends := [(phone, offerLinkMsg it (itemLink it ctx))],
          mem := store_ctx now mem phone ctx2 180, resp := okResp }
      | none => { sends := [], mem := mem, resp := okResp }
    else if reSearch unitRE tlow ∨ ["2", "unitario", "unitarios", "unitários"].contains tlow then
      { sends := [(phone, tabib_unitarios_list_text)],
        mem := store_ctx now mem phone (dictSet ctx "asked" (J.str "tabib_pick_unit")) 180,
        resp := okResp }
    else
      { sends := [(phone, "Não entendi, prefere *todos* por 19,90 ou ver *unitários*?")],
        mem := mem, resp := okResp }
  else if asked = "tabib_pick_unit" then
    if reFullmatch (rrange '1' '4') tlow ∧ (find_tabib_choice_by_number tlow).isSome then
      match find_tabib_choice_by_number tlow with
      | some it =>
        let ctx2 := dictSet (set_checkout_stage now ctx OFFER_TTL_MIN) "asked" J.null
        { sends := [(phone, offerLinkMsg it (itemLink it ctx))],
          mem := store_ctx now mem phone ctx2 180, resp := okResp }
      | none => { sends := [], mem := mem, resp := okResp }
    else
      match find_by_text text with
      | it :: _ =>
        if it.family = "tabib" then
          let ctx2 := dictSet (set_checkout_stage now ctx OFFER_TTL_MIN) "asked" J.null
          { sends := [(phone, offerLinkMsg it (itemLink it ctx))],
            mem := store_ctx now mem phone ctx2 180, resp := okResp }
        else
          { sends := [(phone,
              "Não peguei. Responda com o número (1–4) ou diga o volume, ex.: *v2* / *volume 2*.")],
            mem := mem, resp := okResp }
      | [] =>
        { sends := [(phone,
            "Não peguei. Responda com o número (1–4) ou diga o volume, ex.: *v2* / *volume 2*.")],
          mem := mem, resp := okResp }
  else if reFullmatch digit15SpacedRE tlow ∧
      (find_tabib_choice_by_number (pyStrip tlow)).isSome then
    match find_tabib_choice_by_number (pyStrip tlow) with
    | some it =>
      let ctx2 := dictSet (set_checkout_stage now ctx OFFER_TTL_MIN) "asked" J.null
      { sends := [(phone, offerLinkMsg it (itemLink it ctx))],
        mem := store_ctx now mem phone ctx2 180, resp := okResp }
    | none => { sends := [], mem := mem, resp := okResp }
  else
    { sends := [(phone,
        "Não entendi. Responda *1* para todos, *2* para unitários, ou diga o volume (ex.: *v3*).")],
      mem := mem, resp := okResp }

/-- The per-stage dispatch of `route_stage` (everything after the
product-mention shortcut). -/
def routeStageDispatch (now : Micros) (mem : Mem) (phone : String) (ctx : Dict)
    (text : String) (tlow : String) : BotResult :=
  let stage := dictGetStr ctx "stage" "verify"
  if stage = "checkout" then
    if offer_expired now ctx then
      { sends := [(phone,
          "A condição anterior expirou. Posso **renovar** a oferta e te mandar o link atualizado?")],
        mem := store_ctx now mem phone (dictSet ctx "asked" (J.str "apply_offer")) 180,
        resp := okResp }
    else handle_intent now mem phone ctx text (detect_intent text)
  else if stage = "verify" then
    if is_option tlow ["1", "sim", "sou eu", "isso mesmo", "eu"] then
      let ctx2 := dictSet (dictSet ctx "confirmed_owner" (J.b true)) "stage"
        (J.str "pick_product")
      { sends := [(phone,
          "Legal! Qual produto você quer?\n• Se for *Tabib*, posso te mostrar as opções (volumes + pacote).")],
        mem := store_ctx now mem phone ctx2 180, resp := okResp }
    else if is_option tlow ["2", "não", "nao", "não sou", "nao sou"] then
      { sends := [(phone, "Sem problemas, obrigado! Se precisar, é só chamar. 🙏")],
        mem := clear_ctx mem phone, resp := okResp }
    else handle_intent now mem phone ctx text (detect_intent text)
  else if stage = "pick_product" then
    if pyContains tlow "tabib" then
      { sends := [(phone, menu_tabib_text)],
        mem := store_ctx now mem phone (dictSet ctx "stage" (J.str "tabib_menu")) 180,
        resp := okResp }
    else
      match find_by_text text with
      | it :: _ =>
        let pr := build_offer it.name
        let ctx2 := set_checkout_stage now ctx OFFER_TTL_MIN
        { sends := [(phone, describe_item it ++ "\n\n" ++ pr.1 ++ "\n" ++ pr.2 ++
            "\n\nLink para concluir: " ++ itemLink it ctx ++
            "\nSite oficial: " ++ SITE_URL ++ "\nQuer ajuda para finalizar?")],
          mem := store_ctx now mem phone ctx2 180, resp := okResp }
      | [] =>
        { sends := [(phone,
            "Não entendi o produto. Se for *Tabib*, responda \x27tabib\x27 que eu abro as opções pra você.\nOu me diga palavras-chave (ex.: airfryer, antídoto, kurimã, bálsamo, pressão alta).")],
          mem := mem, resp := okResp }
  else if stage = "tabib_menu" then
    routeTabibMenu now mem phone ctx text tlow
  else handle_intent now mem phone ctx text (detect_intent text)

/-- `route_stage`: the product-mention shortcut runs first, regardless
of the current stage; a `"tabib"` key jumps to the Tabib menu, another
key with a registered family item gets an offer and the checkout stage,
and a key without a registered item falls through to the per-stage
dispatch (with the product fields already mutated, as in the source). -/
def route_stage (now : Micros) (mem : Mem) (phone : String) (ctx : Dict) (text : String) :
    BotResult :=
  let tlow := pyLower (pyStrip text)
  match detect_product_key text with
  | some pk =>
    let ctx1 := dictSet (dictSet ctx "selected_product" (J.str pk)) "product_key" (J.str pk)
    if pk = "tabib" then
      let ctx2 := dictSet (dictSet (dictSet ctx1 "stage" (J.str "tabib_menu"))
        "tabib_bundle" (J.b false)) "asked" (J.str "tabib_main")
      { sends := [(phone, tabibMainPrompt)],
        mem := store_ctx now mem phone ctx2 180, resp := okResp }
    else
      match pick_family_item pk with
      | some it =>
        let pr := build_offer it.name
        let ctx2 := set_checkout_stage now ctx1 OFFER_TTL_MIN
        { sends := [(phone, describe_item it ++ "\n\n" ++ pr.1 ++ "\n" ++ pr.2 ++
            "\n\nPara finalizar com segurança, acesse: " ++ itemLink it ctx1 ++
            "\nQualquer dúvida que você tiver, você pode me falar.")],
          mem := store_ctx now mem phone ctx2 180, resp := okResp }
      | none => routeStageDispatch now mem phone ctx1 text tlow
  | none => routeStageDispatch now mem phone ctx text tlow

/-! ## Webhook payloads

Inbound bodies are JSON dicts whose values may be scalars or nested
dicts (the `message` / `data.message` shapes).  The HTTP and
JSON/form parsing layer is outside the embedding; handlers are
modelled from the parsed body on. -/

inductive BVal where
  | scalar : J → BVal
  | obj : List (String × BVal) → BVal

abbrev Body := List (String × BVal)

def bTruthy : BVal → Bool
  | BVal.scalar v => jTruthy v
  | BVal.obj l => !l.isEmpty

/-- `d.get(k)` collapsed through Python truthiness (a falsy value
behaves like an absent key in every `or`-chain and `if not …` the
extractor performs). -/
def bGetT (d : Body) (k : String) : Option BVal :=
  match (d.find? (fun p2 => p2.1 = k)).map (fun p2 => p2.2) with
  | some v => if bTruthy v then some v else none
  | none => none

def orB (a b2 : Option BVal) : Option BVal :=
  match a with
  | some v => some v
  | none => b2

def bFields : Option BVal → Body
  | some (BVal.obj fs) => fs
  | _ => []

def bStr : Option BVal → Option String
  | some (BVal.scalar (J.str s)) => some s
  | _ => none

def firstStrKey (fields : Body) : List String → Option String
  | [] => none
  | k :: rest =>
    match bStr ((fields.find? (fun p2 => p2.1 = k)).map (fun p2 => p2.2)) with
    | some s => some s
    | none => firstStrKey fields rest

/-- `as_text`: a string is itself; a dict yields its first string-valued
`message`/`text`/`body`/`caption` entry; anything else is nothing. -/
def as_text : Option BVal → Option String
  | some (BVal.scalar (J.str s)) => some s
  | some (BVal.obj fields) => firstStrKey fields ["message", "text", "body", "caption"]
  | _ => none

/-- `extract_phone_and_text`: top-level `phone`/`from` and
`text`/`body`, then the same keys under `message`, then under
`data.message`; the text is coerced by `as_text` and stripped.  A
stripped-empty text is collapsed to `none` (the source returns `""`,
which every caller treats as missing), and a truthy non-string phone is
collapsed to `none` (in the source it would raise inside
`normalize_phone`). -/
def extract_phone_and_text (body : Body) : Option String × Option String :=
  let phone0 := orB (bGetT body "phone") (bGetT body "from")
  let text0 := orB (bGetT body "text") (bGetT body "body")
  let msg := bFields (bGetT body "message")
  let phone1 :=
    if phone0.isNone ∨ text0.isNone then
      orB phone0 (orB (bGetT msg "phone") (bGetT msg "from"))
    else phone0
  let text1 :=
    if phone0.isNone ∨ text0.isNone then
      orB text0 (orB (bGetT msg "text") (bGetT msg "body"))
    else text0
  let m2 := bFields (bGetT (bFields (bGetT body "data")) "message")
  let phone2 :=
    if phone1.isNone ∨ text1.isNone then
      orB phone1 (orB (bGetT m2 "phone") (bGetT m2 "from"))
    else phone1
  let text2 :=
    if phone1.isNone ∨ text1.isNone then
      orB text1 (orB (bGetT m2 "text") (bGetT m2 "body"))
    else text1
  let textOut :=
    match as_text text2 with
    | some s => if pyStrip s = "" then none else some (pyStrip s)
    | none => none
  (normalize_phone (bStr phone2), textOut)

/-- `(d.get("type") or d.get("messageType") or "").lower()` -/
def bTypeOf (d : Body) : String :=
  pyLower (match bStr (orB (bGetT d "type") (bGetT d "messageType")) with
           | some s => s
           | none => "")

/-- `is_audio_or_call`. -/
def is_audio_or_call (body : Body) : Bool :=
  if ["audio", "voice", "ptt", "call", "call_log"].contains (bTypeOf body) then true
  else
    let m := bFields (bGetT body "message")
    if !m.isEmpty ∧ ["audio", "voice", "ptt", "call"].contains (bTypeOf m) then true
    else !m.isEmpty ∧ (["audio", "voice", "ptt"].any (fun k => m.any (fun p2 => p2.1 = k)))

/-! ## Webhook handlers -/

/-- The lazily-created context of the Z-API webhook (no stored context
for the phone): note `confirmed_owner` starts `True`. -/
def freshZapiCtx (now : Micros) : Dict :=
  [("flow", J.str "unknown"), ("name", J.str ""), ("product_name", J.str ""),
   ("product_key", J.str ""), ("selected_product", J.str ""), ("checkout_url", J.str ""),
   ("created_at", J.str (pyIsoformat now)), ("stage", J.str "verify"),
   ("confirmed_owner", J.b true), ("asked", J.null), ("last_intent", J.null),
   ("offer_expires_at", J.null), ("reminded", J.b false)]

def invalidSecretNote : Dict :=
  [("ok", J.b true), ("note", J.str "invalid secret (ignored in test)")]

def missingPhoneTextNote : Dict :=
  [("ok", J.b true), ("note", J.str "missing phone/text")]

/-- The `/webhook/zapi` handler from the parsed body on.  `secret` is
the configured `ZAPI_WEBHOOK_SECRET` (`""` when unset) and `hdr` the
`X-Zapi-Secret` request header. -/
def zapi_webhook (secret : String) (hdr : Option String) (now : Micros) (mem : Mem)
    (body : Body) : BotResult :=
  if secret ≠ "" ∧ hdr ≠ some secret then
    { sends := [], mem := mem, resp := invalidSecretNote }
  else
    let pt := extract_phone_and_text body
    if is_audio_or_call body then
      match pt.1 with
      | some p =>
        { sends := [(p,
            "No momento não conseguimos ouvir áudio e nem atender ligações. Pode escrever por aqui?")],
          mem := mem, resp := okResp }
      | none => { sends := [], mem := mem, resp := okResp }
    else
      match pt.1, pt.2 with
      | some phone, some text =>
        let rc := read_ctx now mem phone
        match rc.1 with
        | none =>
          { sends := [(phone,
              "Oi, aqui é " ++ ASSISTANT_NAME ++ " da " ++ BRAND_NAME ++ ". Como posso ajudar?")],
            mem := store_ctx now rc.2 phone (freshZapiCtx now) 180, resp := okResp }
        | some ctx =>
          if !dictGetTruthy ctx "confirmed_owner" then
            if matchesPatterns text YES_PATTERNS ∨
                ["sou eu", "isso mesmo", "eu", "1"].contains (pyLower text) then
              let ctx2 := dictSet (dictSet ctx "confirmed_owner" (J.b true)) "stage"
                (J.str "pick_product")
              { sends := [(phone,
                  "Ótimo! Qual produto você quer? Se for *Tabib*, posso listar as opções. 🙂")],
                mem := store_ctx now rc.2 phone ctx2 180, resp := okResp }
            else
              { sends := [(phone,
                  "Sou " ++ ASSISTANT_NAME ++ " da " ++ BRAND_NAME ++
                  ". Posso te ajudar a finalizar o pedido?")],
                mem := rc.2, resp := okResp }
          else
            let ctx2 := dictSet ctx "last_intent" (J.str (detect_intent text))
            let mem2 := store_ctx now rc.2 phone ctx2 180
            route_stage now mem2 phone ctx2 text
      | _, _ => { sends := [], mem := mem, resp := missingPhoneTextNote }

/-- The context the CartPanda webhook creates: `confirmed_owner` starts
`False` and the stage is `verify`. -/
def cartpandaCtx (now : Micros) (flow name product_name fam_guess checkout_url : String) :
    Dict :=
  [("flow", J.str flow), ("name", J.str name), ("product_name", J.str product_name),
   ("product_key", J.str fam_guess), ("selected_product", J.str fam_guess),
   ("checkout_url", J.str checkout_url), ("created_at", J.str (pyIsoformat now)),
   ("stage", J.str "verify"), ("confirmed_owner", J.b false), ("asked", J.null),
   ("last_intent", J.null), ("offer_expires_at", J.null), ("reminded", J.b false)]

/-- The 401 `HTTPException` of the CartPanda handler, as a response
dict. -/
def unauthorizedResp : Dict := [("status_code", J.str "401"), ("detail", J.str "invalid secret")]

/-- The `/webhook/cartpanda` handler of `main.py` from the parsed
payload on.  `secret` is the configured `CARTPANDA_WEBHOOK_SECRET` and
`hdr` the `X-Cartpanda-Secret` header; unlike the Z-API endpoint, a
mismatch is a hard 401 rejection. -/
def cartpanda_webhook (secret : String) (hdr : Option String) (now : Micros) (mem : Mem)
    (body : Body) : BotResult :=
  if secret ≠ "" ∧ hdr ≠ some secret then
    { sends := [], mem := mem, resp := unauthorizedResp }
  else
    let event := pyLower (pyStrip (match bStr (bGetT body "event") with
                                   | some s => s
                                   | none => ""))
    let cust := bFields (bGetT body "customer")
    let prod := bFields (bGetT body "product")
    let phoneO := normalize_phone (bStr (bGetT cust "phone"))
    let name := pyStrip (match bStr (bGetT cust "name") with | some s => s | none => "")
    let product_name := pyStrip (match bStr (bGetT prod "name") with | some s => s | none => "")
    let checkout_url :=
      pyStrip (match bStr (bGetT prod "checkout_url") with | some s => s | none => "")
    match phoneO with
    | some phone =>
      if product_name = "" then
        { sends := [], mem := mem,
          resp := [("ok", J.b false), ("reason", J.str "missing phone or product")] }
      else
        let flow :=
          if event = "checkout_abandoned" then "abandoned"
          else if event = "pix_pending" then "pix_pending"
          else "unknown"
        let fam_guess := infer_family "" product_name
        let ctx := cartpandaCtx now flow name product_name fam_guess checkout_url
        { sends := [(phone,
            "Bom dia! Esse número é de " ++ name ++ "? Sou " ++ ASSISTANT_NAME ++ " da " ++
            BRAND_NAME ++ ". Responda 1) Sim  2) Não")],
          mem := store_ctx now mem phone ctx 180,
          resp := [("ok", J.b true), ("flow", J.str flow)] }
    | none =>
      { sends := [], mem := mem,
        resp := [("ok", J.b false), ("reason", J.str "missing phone or product")] }

/-! ## Helper lemmas on the dict operations -/

theorem dictGet_dictSet_self (d : Dict) (k : String) (v : J) :
    dictGet (dictSet d k v) k = some v := by
  induction d with
  | nil => simp [dictGet, dictSet]
  | cons hd tl ih =>
    obtain ⟨k1, v1⟩ := hd
    by_cases hk : k1 = k
    · simp [dictGet, dictSet, hk]
    · simp [dictGet, dictSet, hk, ih]

theorem dictGet_dictSet_ne (d : Dict) (k k2 : String) (v : J) (h : k2 ≠ k) :
    dictGet (dictSet d k v) k2 = dictGet d k2 := by
  induction d with
  | nil => simp [dictGet, dictSet, Ne.symm h]
  | cons hd tl ih =>
    obtain ⟨k1, v1⟩ := hd
    by_cases hk : k1 = k
    · subst hk
      simp [dictGet, dictSet, Ne.symm h]
    · by_cases hk2 : k1 = k2
      · subst hk2
        simp [dictGet, dictSet, hk, h]
      · simp [dictGet, dictSet, hk, hk2, ih]

theorem dictGetStr_dictSet_self (d : Dict) (k : String) (s dflt : String) :
    dictGetStr (dictSet d k (J.str s)) k dflt = if s = "" then dflt else s := by
  simp [dictGetStr, dictGet_dictSet_self]

theorem set_checkout_stage_stage (now : Micros) (ctx : Dict) (minutes : Int) :
    dictGet (set_checkout_stage now ctx minutes) "stage" = some (J.str "checkout") := by
  unfold set_checkout_stage
  rw [dictGet_dictSet_ne _ _ _ _ (by decide), dictGet_dictSet_ne _ _ _ _ (by decide),
      dictGet_dictSet_self]

theorem filter_isDigit_idem (l : List Char) :
    (l.filter (fun c => c.isDigit)).filter (fun c => c.isDigit)
      = l.filter (fun c => c.isDigit) := by
  rw [List.filter_filter]
  simp

theorem hitsFold_eq (toks : List String) (acc : List Item) :
    toks.foldl
      (fun acc2 t =>
        match aliasLookup t with
        | some sku =>
          (match catalogGet sku with
           | some it2 => acc2 ++ [it2]
           | none => acc2)
        | none => acc2)
      acc = acc ++ toks.filterMap aliasHitItem := by
  induction toks generalizing acc with
  | nil => simp
  | cons t ts ih =>
    simp only [List.foldl_cons, List.filterMap_cons]
    cases hla : aliasLookup t with
    | none => simp [ih, aliasHitItem, hla]
    | some sku =>
      cases hcg : catalogGet sku with
      | none => simp [ih, aliasHitItem, hla, hcg]
      | some it2 => simp [ih, aliasHitItem, hla, hcg]

theorem firstAliasHit_head (toks : List String) (sku : String) (it : Item)
    (hfa : firstAliasHit toks = some sku) (hcg : catalogGet sku = some it) :
    (toks.filterMap aliasHitItem).head? = some it := by
  induction toks with
  | nil => cases hfa
  | cons t ts ih =>
    cases hla : aliasLookup t with
    | none =>
      simp only [firstAliasHit, hla] at hfa
      simp [List.filterMap_cons, aliasHitItem, hla, ih hfa]
    | some sku0 =>
      cases hcg0 : catalogGet sku0 with
      | none =>
        simp only [firstAliasHit, hla, hcg0, Option.isSome_none, Bool.false_eq_true,
          if_false] at hfa
        simp [List.filterMap_cons, aliasHitItem, hla, hcg0, ih hfa]
      | some it0 =>
        simp only [firstAliasHit, hla, hcg0, Option.isSome_some, if_true] at hfa
        obtain rfl : sku0 = sku := Option.some.inj hfa
        rw [hcg] at hcg0
        simp [List.filterMap_cons, aliasHitItem, hla, hcg, Option.some.inj hcg0]

theorem dedupBySkuGo_head (l : List Item) :
    (dedupBySkuGo [] l).head? = l.head? := by
  cases l with
  | nil => rfl
  | cons it rest => simp [dedupBySkuGo]

theorem dedupBySkuGo_eq_self (l : List Item) (seen : List String)
    (hnd : (l.map (fun it => it.sku)).Nodup)
    (hdisj : ∀ it2 ∈ l, seen.contains it2.sku = false) :
    dedupBySkuGo seen l = l := by
  induction l generalizing seen with
  | nil => rfl
  | cons it rest ih =>
    have h1 : seen.contains it.sku = false := hdisj it (by simp)
    simp only [List.map_cons, List.nodup_cons] at hnd
    simp only [dedupBySkuGo, h1, Bool.false_eq_true, if_false]
    congr 1
    apply ih
    · exact hnd.2
    · intro it2 hit2
      simp only [List.contains_cons]
      have hne : it2.sku ≠ it.sku := by
        intro he
        exact hnd.1 (by
          rw [List.mem_map]
          exact ⟨it2, hit2, he⟩)
      have h2 : it2.sku ∉ seen := by simpa using hdisj it2 (by simp [hit2])
      simp [hne, h2]

/-! ## Claim theorems -/

/-- Claim C1: whenever `detect_product_key` finds a known product key in
the inbound text, `route_stage` branches to that product's flow before
any stage-specific logic, for every current context and stage: the
`"tabib"` key sends the Tabib menu prompt and stores the context with
stage `"tabib_menu"` and `asked = "tabib_main"`; any other detected key
whose family has a registered item sends its offer and stores the
context with stage `"checkout"`. -/
theorem C1_product_shortcut (now : Micros) (mem : Mem) (phone : String) (ctx : Dict)
    (text : String) :
    (detect_product_key text = some "tabib" →
      (route_stage now mem phone ctx text).sends = [(phone, tabibMainPrompt)] ∧
      storedGet (route_stage now mem phone ctx text) "stage" = some (J.str "tabib_menu") ∧
      storedGet (route_stage now mem phone ctx text) "asked" = some (J.str "tabib_main")) ∧
    (∀ (k : String) (it : Item),
      detect_product_key text = some k → k ≠ "tabib" → pick_family_item k = some it →
      (route_stage now mem phone ctx text).sends =
        [(phone, describe_item it ++ "\n\n" ++ (build_offer it.name).1 ++ "\n" ++
          (build_offer it.name).2 ++ "\n\nPara finalizar com segurança, acesse: " ++
          itemLink it (dictSet (dictSet ctx "selected_product" (J.str k)) "product_key"
            (J.str k)) ++
          "\nQualquer dúvida que você tiver, você pode me falar.")] ∧
      storedGet (route_stage now mem phone ctx text) "stage" = some (J.str "checkout")) := by
  constructor
  · intro h
    have hre : route_stage now mem phone ctx text =
        { sends := [(phone, tabibMainPrompt)],
          mem := store_ctx now mem phone
            (dictSet (dictSet (dictSet (dictSet (dictSet ctx "selected_product"
              (J.str "tabib")) "product_key" (J.str "tabib")) "stage" (J.str "tabib_menu"))
              "tabib_bundle" (J.b false)) "asked" (J.str "tabib_main")) 180,
          resp := okResp } := by
      simp [route_stage, h]
    rw [hre]
    refine ⟨rfl, ?_, ?_⟩
    · show dictGet _ "stage" = _
      rw [dictGet_dictSet_ne _ _ _ _ (by decide), dictGet_dictSet_ne _ _ _ _ (by decide),
          dictGet_dictSet_self]
    · exact dictGet_dictSet_self _ _ _
  · intro k it h hk hit
    have hre : route_stage now mem phone ctx text =
        { sends := [(phone, describe_item it ++ "\n\n" ++ (build_offer it.name).1 ++ "\n" ++
            (build_offer it.name).2 ++ "\n\nPara finalizar com segurança, acesse: " ++
            itemLink it (dictSet (dictSet ctx "selected_product" (J.str k)) "product_key"
              (J.str k)) ++
            "\nQualquer dúvida que você tiver, você pode me falar.")],
          mem := store_ctx now mem phone
            (set_checkout_stage now (dictSet (dictSet ctx "selected_product" (J.str k))
              "product_key" (J.str k)) OFFER_TTL_MIN) 180,
          resp := okResp } := by
      simp [route_stage, h, hk, hit]
    rw [hre]
    exact ⟨rfl, set_checkout_stage_stage _ _ _⟩

/-- Claim C1 witness: the shortcut at concrete inputs — a Tabib mention
from an empty context, and an airfryer mention whose family item is the
premium airfryer guide. -/
theorem C1_product_shortcut_witness :
    ((route_stage 0 [] "p" [] "quero o tabib").sends = [("p", tabibMainPrompt)] ∧
     storedGet (route_stage 0 [] "p" [] "quero o tabib") "stage" = some (J.str "tabib_menu") ∧
     storedGet (route_stage 0 [] "p" [] "quero o tabib") "asked"
       = some (J.str "tabib_main")) ∧
    ((route_stage 0 [] "p" [] "quero airfryer").sends =
       [("p", describe_item airfryerPremiumItem ++ "\n\n" ++
         (build_offer airfryerPremiumItem.name).1 ++ "\n" ++
         (build_offer airfryerPremiumItem.name).2 ++
         "\n\nPara finalizar com segurança, acesse: " ++
         itemLink airfryerPremiumItem (dictSet (dictSet [] "selected_product"
           (J.str "airfryer")) "product_key" (J.str "airfryer")) ++
         "\nQualquer dúvida que você tiver, você pode me falar.")] ∧
     storedGet (route_stage 0 [] "p" [] "quero airfryer") "stage"
       = some (J.str "checkout")) :=
  ⟨(C1_product_shortcut 0 [] "p" [] "quero o tabib").1 (by decide),
   (C1_product_shortcut 0 [] "p" [] "quero airfryer").2 "airfryer" airfryerPremiumItem
     (by decide) (by decide) (by decide)⟩

/-- Claim C2 (amended): if the normalized text matches a `stop` pattern
and a `price` pattern, and no earlier intent of the table (`greeting`,
`thanks`) matches, `detect_intent` returns `"stop"` — table order is
the priority order; and when no table entry and none of the four legacy
checks match, it returns `"unknown"` (it is total, so it never
raises). -/
theorem C2_intent_precedence (text : String) :
    ((intentPatterns "stop").any (fun p => reSearch p (normalize_text text)) = true →
     (intentPatterns "price").any (fun p => reSearch p (normalize_text text)) = true →
     (intentPatterns "greeting").any (fun p => reSearch p (normalize_text text)) = false →
     (intentPatterns "thanks").any (fun p => reSearch p (normalize_text text)) = false →
     detect_intent text = "stop") ∧
    ((∀ pr ∈ INTENTS, pr.2.any (fun p => reSearch p (normalize_text text)) = false) →
     reSearch legacyYesRE (normalize_text text) = false →
     reSearch legacyNoRE (normalize_text text) = false →
     reSearch legacyBoughtRE (normalize_text text) = false →
     reSearch legacyQuitRE (normalize_text text) = false →
     detect_intent text = "unknown") := by
  constructor
  · intro hs hp hg ht
    simp [intentPatterns, INTENTS, List.find?] at hs hg ht
    simp [detect_intent, INTENTS, List.find?, hg, ht, hs]
  · intro hall h1 h2 h3 h4
    have hfind : INTENTS.find?
        (fun pr => pr.2.any (fun p => reSearch p (normalize_text text))) = none := by
      rw [List.find?_eq_none]
      intro x hx
      simp [hall x hx]
    simp [detect_intent, hfind, h1, h2, h3, h4]

/-- Claim C2 witness: a text matching stop and price patterns but no
earlier intent classifies as `"stop"`; a text matching nothing
classifies as `"unknown"`. -/
theorem C2_intent_precedence_witness :
    detect_intent "nao quero saber o valor" = "stop" ∧
    detect_intent "blarg xyzzy" = "unknown" :=
  ⟨(C2_intent_precedence "nao quero saber o valor").1 (by decide) (by decide) (by decide)
     (by decide),
   (C2_intent_precedence "blarg xyzzy").2 (by decide) (by decide) (by decide) (by decide)
     (by decide)⟩

/-- Claim C2 counterexample: "oi, não quero saber o valor" matches both
a `stop` pattern and a `price` pattern on its normalized form, yet
`detect_intent` returns `"greeting"`, not `"stop"`, because `greeting`
precedes `stop` in the table — the claim as stated (any stop+price
match yields `"stop"`) is false. -/
theorem C2_intent_precedence_counterexample :
    (intentPatterns "stop").any
      (fun p => reSearch p (normalize_text "oi, não quero saber o valor")) = true ∧
    (intentPatterns "price").any
      (fun p => reSearch p (normalize_text "oi, não quero saber o valor")) = true ∧
    detect_intent "oi, não quero saber o valor" = "greeting" ∧
    ("greeting" : String) ≠ "stop" := by
  refine ⟨by decide, by decide, by decide, by decide⟩

/-- Claim C3 (amended): the first token of the text that resolves in
the alias index determines the head of `find_by_text` (alias-index
collisions are last-writer-wins, so an alias sharing a token with a
later catalog item resolves to that later item); and for a text with
at least one token, none of which is in the alias index, every catalog
item whose lowercased name contains all tokens as substrings is
returned. -/
theorem C3_find_by_text (text : String) (sku : String) (it : Item) :
    (firstAliasHit (safe_tokens text) = some sku →
     catalogGet sku = some it →
     (find_by_text text).head? = some it) ∧
    (safe_tokens text ≠ [] →
     (∀ tok ∈ safe_tokens text, aliasLookup tok = none) →
     it ∈ Catalog →
     (safe_tokens text).all (fun tok => pyContains (pyLower it.name) tok) = true →
     it ∈ find_by_text text) := by
  constructor
  · intro hfa hcg
    have hhead := firstAliasHit_head _ _ _ hfa hcg
    have hne : (safe_tokens text).filterMap aliasHitItem ≠ [] := by
      intro h0
      rw [h0] at hhead
      cases hhead
    simp only [find_by_text, hitsFold_eq, List.nil_append]
    rw [if_neg (by simp [hne]), dedupBySkuGo_head]
    exact hhead
  · intro htok hnone hmem hall
    have hhits : (safe_tokens text).filterMap aliasHitItem = [] := by
      rw [List.filterMap_eq_nil_iff]
      intro a ha
      simp [aliasHitItem, hnone a ha]
    simp only [find_by_text, hitsFold_eq, List.nil_append]
    rw [hhits, if_pos ⟨rfl, htok⟩]
    rw [dedupBySkuGo_eq_self]
    · exact List.mem_filter.mpr ⟨hmem, hall⟩
    · have hnd : (Catalog.map (fun it2 => it2.sku)).Nodup := by decide
      exact hnd.sublist ((List.filter_sublist _).map _)
    · intro it2 _
      rfl

/-- Claim C3 witness: the token `premium` resolves in the alias index
to the premium airfryer item, which is returned first; the token
`premiu` is in no alias but is a substring of that item's name, so the
fallback still returns the item. -/
theorem C3_find_by_text_witness :
    (find_by_text "premium").head? = some airfryerPremiumItem ∧
    airfryerPremiumItem ∈ find_by_text "premiu" :=
  ⟨(C3_find_by_text "premium" "AIRFRYER_PREMIUM" airfryerPremiumItem).1 (by decide)
     (by decide),
   (C3_find_by_text "premiu" "" airfryerPremiumItem).2 (by decide) (by decide) (by decide)
     (by decide)⟩

/-- Claim C3 counterexample: `"tabib 1"` is a declared alias of
`TABIB_V1`, but `find_by_text "tabib 1"` returns the 2024+2025 bundle
first, because the token `tabib` was overwritten by the last tabib item
in the alias index; and `find_by_text "!!!"` (no tokens, so vacuously
no token is in the index) returns nothing although every item's name
contains all zero tokens. -/
theorem C3_find_by_text_counterexample :
    ((catalogGet "TABIB_V1").map (fun it => it.aliases.contains "tabib 1")) = some true ∧
    ((find_by_text "tabib 1").head?).map (fun it => it.sku)
      = some "TABIB_24_25_BUNDLE" ∧
    ("TABIB_24_25_BUNDLE" : String) ≠ "TABIB_V1" ∧
    find_by_text "!!!" = [] ∧
    Catalog ≠ [] := by
  refine ⟨by decide, by decide, by decide, by decide, by decide⟩

/-- Claim C4: `normalize_phone` keeps a digit string already starting
with `55` unchanged (hence it is idempotent on its own outputs),
prepends `55` when at least 10 digits remain, and fails on fewer than
10 digits without the prefix. -/
theorem C4_normalize_phone (r s : String) (hr : r ≠ "")
    (hs : s = String.mk (r.toList.filter (fun c => c.isDigit))) :
    (strStarts s "55" = true → normalize_phone (some r) = some s) ∧
    (strStarts s "55" = false → 10 ≤ s.length → normalize_phone (some r) = some ("55" ++ s)) ∧
    (strStarts s "55" = false → s.length < 10 → normalize_phone (some r) = none) ∧
    (∀ out, normalize_phone (some r) = some out → normalize_phone (some out) = some out) := by
  have hnp : normalize_phone (some r) =
      (if strStarts s "55" then some s
       else if 10 ≤ s.length then some ("55" ++ s) else none) := by
    subst hs
    simp only [normalize_phone, hr, if_neg]
    rfl
  refine ⟨?_, ?_, ?_, ?_⟩
  · intro h
    rw [hnp, if_pos h]
  · intro h hl
    rw [hnp, if_neg (by simp [h]), if_pos hl]
  · intro h hl
    rw [hnp, if_neg (by simp [h]), if_neg (by omega)]
  · intro out hout
    rw [hnp] at hout
    by_cases h55 : strStarts s "55"
    · rw [if_pos h55] at hout
      obtain rfl : s = out := Option.some.inj hout
      have hne : s ≠ "" := by
        intro hemp
        rw [hemp] at h55
        simp [strStarts, List.isPrefixOf] at h55
      have hfil : s.toList.filter (fun c => c.isDigit) = s.toList := by
        subst hs
        exact filter_isDigit_idem _
      have hstep : normalize_phone (some s) =
          (if strStarts (String.mk (s.toList.filter (fun c => c.isDigit))) "55"
           then some (String.mk (s.toList.filter (fun c => c.isDigit)))
           else if 10 ≤ (String.mk (s.toList.filter (fun c => c.isDigit))).length
           then some ("55" ++ String.mk (s.toList.filter (fun c => c.isDigit))) else none) := by
        simp only [normalize_phone, hne, if_neg]
        rfl
      rw [hstep, hfil]
      have hms : String.mk s.toList = s := rfl
      rw [hms, if_pos h55]
    · rw [if_neg (by simp [h55])] at hout
      by_cases hl : 10 ≤ s.length
      · rw [if_pos hl] at hout
        obtain rfl : "55" ++ s = out := Option.some.inj hout
        have hdata : ("55" ++ s).toList = '5' :: '5' :: s.toList := rfl
        have hne : ("55" ++ s) ≠ "" := by
          intro hemp
          have h2 := congrArg String.toList hemp
          rw [hdata] at h2
          simp [String.toList] at h2
        have hfil : s.toList.filter (fun c => c.isDigit) = s.toList := by
          subst hs
          exact filter_isDigit_idem _
        have hstep : normalize_phone (some ("55" ++ s)) =
            (if strStarts (String.mk (("55" ++ s).toList.filter (fun c => c.isDigit))) "55"
             then some (String.mk (("55" ++ s).toList.filter (fun c => c.isDigit)))
             else if 10 ≤ (String.mk (("55" ++ s).toList.filter (fun c => c.isDigit))).length
             then some ("55" ++ String.mk (("55" ++ s).toList.filter (fun c => c.isDigit)))
             else none) := by
          simp only [normalize_phone, hne, if_neg]
          rfl
        rw [hstep, hdata]
        have h5d : ('5' : Char).isDigit = true := by decide
        have hfil2 : ('5' :: '5' :: s.toList).filter (fun c => c.isDigit)
            = '5' :: '5' :: s.toList := by
          rw [List.filter_cons_of_pos (by exact h5d), List.filter_cons_of_pos (by exact h5d),
              hfil]
        rw [hfil2]
        have hpre : strStarts (String.mk ('5' :: '5' :: s.toList)) "55" = true := by
          simp [strStarts, List.isPrefixOf, String.toList]
        rw [if_pos hpre]
        rfl
      · rw [if_neg hl] at hout
        cases hout

/-- Claim C4 witness: a formatted 11-digit number gains the prefix, an
already-prefixed number (a previous output) is returned unchanged, and
a short number fails. -/
theorem C4_normalize_phone_witness :
    normalize_phone (some "(11) 98888-7777") = some "5511988887777" ∧
    normalize_phone (some "5511988887777") = some "5511988887777" ∧
    normalize_phone (some "119888") = none :=
  ⟨(C4_normalize_phone "(11) 98888-7777" "11988887777" (by decide) (by decide)).2.1
     (by decide) (by decide),
   (C4_normalize_phone "(11) 98888-7777" "11988887777" (by decide) (by decide)).2.2.2
     "5511988887777" ((C4_normalize_phone "(11) 98888-7777" "11988887777" (by decide)
       (by decide)).2.1 (by decide) (by decide)),
   (C4_normalize_phone "119888" "119888" (by decide) (by decide)).2.2.1 (by decide)
     (by decide)⟩

/-- Claim C5: `offer_expired` is true exactly when the parseable
`offer_expires_at` stamp lies strictly in the past, false for a future
stamp, and false when the field is absent or null. -/
theorem C5_offer_expired (now t : Micros) (ctx : Dict) (s : String) :
    (dictGet ctx "offer_expires_at" = some (J.str s) → fromisoformat s = some t →
      ((t < now → offer_expired now ctx = true) ∧
       (now < t → offer_expired now ctx = false))) ∧
    (dictGet ctx "offer_expires_at" = none → offer_expired now ctx = false) ∧
    (dictGet ctx "offer_expires_at" = some J.null → offer_expired now ctx = false) := by
  refine ⟨?_, ?_, ?_⟩
  · intro hget hp
    have hsne : s ≠ "" := by
      intro he
      subst he
      have h0 : fromisoformat "" = none := rfl
      rw [h0] at hp
      cases hp
    constructor
    · intro hlt
      simp [offer_expired, hget, hsne, hp]
      exact hlt
    · intro hgt
      simp [offer_expired, hget, hsne, hp]
      exact Int.le_of_lt hgt
  · intro hget
    simp [offer_expired, hget]
  · intro hget
    simp [offer_expired, hget]

/-- Claim C5 witness: a stamp for 2020-01-01 is expired one microsecond
later and not expired one microsecond earlier; absent and null stamps
are never expired. -/
theorem C5_offer_expired_witness :
    offer_expired 1577836800000001 [("offer_expires_at", J.str "2020-01-01T00:00:00")]
      = true ∧
    offer_expired 1577836799999999 [("offer_expires_at", J.str "2020-01-01T00:00:00")]
      = false ∧
    offer_expired 0 ([] : Dict) = false ∧
    offer_expired 0 [("offer_expires_at", J.null)] = false :=
  ⟨((C5_offer_expired 1577836800000001 1577836800000000
      [("offer_expires_at", J.str "2020-01-01T00:00:00")] "2020-01-01T00:00:00").1
      (by decide) (by decide)).1 (by decide),
   ((C5_offer_expired 1577836799999999 1577836800000000
      [("offer_expires_at", J.str "2020-01-01T00:00:00")] "2020-01-01T00:00:00").1
      (by decide) (by decide)).2 (by decide),
   (C5_offer_expired 0 0 [] "x").2.1 (by decide),
   (C5_offer_expired 0 0 [("offer_expires_at", J.null)] "x").2.2 (by decide)⟩

/-- Claim C6 (amended): within `route_stage`, a verify-stage message
that is neither a literal affirmative nor a literal negative (and
carries no product keyword) is dispatched to `handle_intent` with the
detected intent; but the webhook only reaches `route_stage` when the
owner is confirmed — for an unconfirmed owner whose message is not an
affirmative, the webhook replies with a fixed re-introduction prompt
and never consults the stage router or the intent handler. -/
theorem C6_verify_dispatch (now : Micros) (mem : Mem) (phone text : String) (ctx : Dict)
    (secret : String) (hdr : Option String) (body : Body) :
    (dictGetStr ctx "stage" "verify" = "verify" →
     detect_product_key text = none →
     is_option (pyLower (pyStrip text)) ["1", "sim", "sou eu", "isso mesmo", "eu"] = false →
     is_option (pyLower (pyStrip text)) ["2", "não", "nao", "não sou", "nao sou"] = false →
     route_stage now mem phone ctx text =
       handle_intent now mem phone ctx text (detect_intent text)) ∧
    ((secret = "" ∨ hdr = some secret) →
     extract_phone_and_text body = (some phone, some text) →
     is_audio_or_call body = false →
     (read_ctx now mem phone).1 = some ctx →
     dictGetTruthy ctx "confirmed_owner" = false →
     matchesPatterns text YES_PATTERNS = false →
     (["sou eu", "isso mesmo", "eu", "1"].contains (pyLower text)) = false →
     zapi_webhook secret hdr now mem body =
       { sends := [(phone,
           "Sou " ++ ASSISTANT_NAME ++ " da " ++ BRAND_NAME ++
           ". Posso te ajudar a finalizar o pedido?")],
         mem := (read_ctx now mem phone).2, resp := okResp }) := by
  constructor
  · intro hstage hdpk haff hneg
    simp [route_stage, hdpk, routeStageDispatch, hstage, haff, hneg]
  · intro hsec hex haud hread hconf hyes hlit
    have hgate : ¬ (secret ≠ "" ∧ hdr ≠ some secret) := by
      rcases hsec with h1 | h1
      · simp [h1]
      · simp [h1]
    simp [zapi_webhook, hgate, hex, haud, hread, hconf, hyes, hlit]
    intro hor
    rcases hor with h | h | h | h <;> simp [h] at hlit

/-- Claim C6 witness: in a confirmed verify-stage context the price
question is delegated to the intent handler; from an unconfirmed
context the webhook answers the same question with the fixed prompt. -/
theorem C6_verify_dispatch_witness :
    (route_stage 0 [] "p" [("stage", J.str "verify")] "qual o preco" =
       handle_intent 0 [] "p" [("stage", J.str "verify")] "qual o preco"
         (detect_intent "qual o preco")) ∧
    (zapi_webhook "" none 1
       (store_ctx 0 [] "5511999998888"
         [("stage", J.str "verify"), ("confirmed_owner", J.b false)] 180)
       [("phone", BVal.scalar (J.str "5511999998888")),
        ("text", BVal.scalar (J.str "qual o preco"))] =
     { sends := [("5511999998888",
         "Sou " ++ ASSISTANT_NAME ++ " da " ++ BRAND_NAME ++
         ". Posso te ajudar a finalizar o pedido?")],
       mem := (read_ctx 1
         (store_ctx 0 [] "5511999998888"
           [("stage", J.str "verify"), ("confirmed_owner", J.b false)] 180)
         "5511999998888").2,
       resp := okResp }) :=
  ⟨(C6_verify_dispatch 0 [] "p" "qual o preco" [("stage", J.str "verify")] "" none []).1
     (by decide) (by decide) (by decide) (by decide),
   (C6_verify_dispatch 1
      (store_ctx 0 [] "5511999998888"
        [("stage", J.str "verify"), ("confirmed_owner", J.b false)] 180)
      "5511999998888" "qual o preco"
      [("stage", J.str "verify"), ("confirmed_owner", J.b false)] "" none
      [("phone", BVal.scalar (J.str "5511999998888")),
       ("text", BVal.scalar (J.str "qual o preco"))]).2
     (Or.inl rfl) (by decide) (by decide) (by decide) (by decide) (by decide) (by decide)⟩

/-- Claim C6 counterexample: with stage `"verify"` and an unconfirmed
owner, the message "qual o preco" — whose intent is `"price"` and which
is neither a literal affirmative nor negative — is answered by the
webhook with the fixed re-introduction prompt; the intent handler, had
it been consulted, would have replied differently.  The claim that such
a message is dispatched to intent handling before ownership is
confirmed is false. -/
theorem C6_verify_dispatch_counterexample :
    (zapi_webhook "" none 1
       (store_ctx 0 [] "5511999998888"
         [("stage", J.str "verify"), ("confirmed_owner", J.b false)] 180)
       [("phone", BVal.scalar (J.str "5511999998888")),
        ("text", BVal.scalar (J.str "qual o preco"))]).sends =
      [("5511999998888", "Sou Iara da Paginatto. Posso te ajudar a finalizar o pedido?")] ∧
    detect_intent "qual o preco" = "price" ∧
    (handle_intent 1
       (store_ctx 0 [] "5511999998888"
         [("stage", J.str "verify"), ("confirmed_owner", J.b false)] 180)
       "5511999998888" [("stage", J.str "verify"), ("confirmed_owner", J.b false)]
       "qual o preco" "price").sends ≠
      [("5511999998888", "Sou Iara da Paginatto. Posso te ajudar a finalizar o pedido?")] := by
  refine ⟨by decide, by decide, by decide⟩

/-- Claim C7: on the in-memory fallback path, storing a context and
reading it back before the TTL instant returns an equal value, and
reading after the TTL instant returns nothing. -/
theorem C7_store_read_ttl (t0 t1 : Micros) (mem : Mem) (phone : String) (ctx : Dict)
    (minutes : Int) :
    (t1 < minutes_from_now t0 minutes →
      (read_ctx t1 (store_ctx t0 mem phone ctx minutes) phone).1 = some ctx) ∧
    (minutes_from_now t0 minutes < t1 →
      (read_ctx t1 (store_ctx t0 mem phone ctx minutes) phone).1 = none) := by
  constructor
  · intro h
    simp [read_ctx, store_ctx, List.find?]
    rw [if_neg (Int.not_lt.mpr (Int.le_of_lt h))]
  · intro h
    simp [read_ctx, store_ctx, List.find?]
    rw [if_pos h]

/-- Claim C7 witness: a context stored at time 0 with a 180-minute TTL
is read back just before the 180-minute instant and gone just after. -/
theorem C7_store_read_ttl_witness :
    (read_ctx 10799999999 (store_ctx 0 [] "p" [("stage", J.str "verify")] 180) "p").1
      = some [("stage", J.str "verify")] ∧
    (read_ctx 10800000001 (store_ctx 0 [] "p" [("stage", J.str "verify")] 180) "p").1
      = none :=
  ⟨(C7_store_read_ttl 0 10799999999 [] "p" [("stage", J.str "verify")] 180).1 (by decide),
   (C7_store_read_ttl 0 10800000001 [] "p" [("stage", J.str "verify")] 180).2 (by decide)⟩

/-- Claim C8 (amended): a non-matching shared-secret header on the
Z-API endpoint is acknowledged with a 200-style `ok` note rather than
an auth error, but it does block processing: the handler returns early,
so the body is never extracted, nothing is routed, no message is sent
and the store is untouched. -/
theorem C8_secret_mismatch (secret : String) (hdr : Option String) (now : Micros)
    (mem : Mem) (body : Body) (hs : secret ≠ "") (hh : hdr ≠ some secret) :
    zapi_webhook secret hdr now mem body =
      { sends := [], mem := mem, resp := invalidSecretNote } := by
  simp [zapi_webhook, hs, hh]

/-- Claim C8 witness: a wrong header against a configured secret yields
the note response with no sends and no store change. -/
theorem C8_secret_mismatch_witness :
    zapi_webhook "s3cret" (some "wrong") 0 []
        [("phone", BVal.scalar (J.str "5511999998888")),
         ("text", BVal.scalar (J.str "oi"))] =
      { sends := [], mem := [], resp := invalidSecretNote } :=
  C8_secret_mismatch "s3cret" (some "wrong") 0 []
    [("phone", BVal.scalar (J.str "5511999998888")), ("text", BVal.scalar (J.str "oi"))]
    (by decide) (by decide)

/-- Claim C8 counterexample: the same request that is greeted and
stored under a valid secret produces no send at all under a mismatched
secret — the mismatch does not merely get logged, it stops the (phone,
text) extraction and routing, so the claim that processing continues
as with a valid secret is false. -/
theorem C8_secret_mismatch_counterexample :
    zapi_webhook "s3cret" (some "wrong") 0 []
        [("phone", BVal.scalar (J.str "5511999998888")),
         ("text", BVal.scalar (J.str "oi"))] =
      { sends := [], mem := [], resp := invalidSecretNote } ∧
    (zapi_webhook "s3cret" (some "s3cret") 0 []
        [("phone", BVal.scalar (J.str "5511999998888")),
         ("text", BVal.scalar (J.str "oi"))]).sends =
      [("5511999998888", "Oi, aqui é Iara da Paginatto. Como posso ajudar?")] := by
  refine ⟨by decide, by decide⟩

/-- Claim C9: an inbound message from a phone with no stored context is
answered only with the fixed greeting — the result is the same for
every message text — and the lazily-created context is stored with
`confirmed_owner = true`, unlike the CartPanda-created context, which
starts with `confirmed_owner = false`. -/
theorem C9_lazy_context (secret : String) (hdr : Option String) (now : Micros) (mem : Mem)
    (body : Body) (phone text : String)
    (hsec : secret = "" ∨ hdr = some secret)
    (hex : extract_phone_and_text body = (some phone, some text))
    (haud : is_audio_or_call body = false)
    (hread : (read_ctx now mem phone).1 = none) :
    zapi_webhook secret hdr now mem body =
      { sends := [(phone,
          "Oi, aqui é " ++ ASSISTANT_NAME ++ " da " ++ BRAND_NAME ++ ". Como posso ajudar?")],
        mem := store_ctx now (read_ctx now mem phone).2 phone (freshZapiCtx now) 180,
        resp := okResp } ∧
    dictGet (freshZapiCtx now) "confirmed_owner" = some (J.b true) ∧
    (∀ flow nm pn fg cu,
      dictGet (cartpandaCtx now flow nm pn fg cu) "confirmed_owner" = some (J.b false)) := by
  refine ⟨?_, by simp [freshZapiCtx, dictGet], ?_⟩
  · have hgate : ¬ (secret ≠ "" ∧ hdr ≠ some secret) := by
      rcases hsec with h1 | h1
      · simp [h1]
      · simp [h1]
    simp [zapi_webhook, hgate, hex, haud, hread]
  · intro flow nm pn fg cu
    simp [cartpandaCtx, dictGet]

/-- Claim C9 witness: a first message to an empty store gets exactly
the greeting and a stored context with `confirmed_owner = true`; the
CartPanda context at the same instant starts unconfirmed. -/
theorem C9_lazy_context_witness :
    zapi_webhook "" none 0 []
        [("phone", BVal.scalar (J.str "5511999998888")),
         ("text", BVal.scalar (J.str "quero o tabib"))] =
      { sends := [("5511999998888",
          "Oi, aqui é " ++ ASSISTANT_NAME ++ " da " ++ BRAND_NAME ++ ". Como posso ajudar?")],
        mem := store_ctx 0 (read_ctx 0 [] "5511999998888").2 "5511999998888"
          (freshZapiCtx 0) 180,
        resp := okResp } ∧
    dictGet (freshZapiCtx 0) "confirmed_owner" = some (J.b true) ∧
    dictGet (cartpandaCtx 0 "abandoned" "Ana" "Tabib Volume 2" "tabib" "")
      "confirmed_owner" = some (J.b false) :=
  ⟨(C9_lazy_context "" none 0 []
      [("phone", BVal.scalar (J.str "5511999998888")),
       ("text", BVal.scalar (J.str "quero o tabib"))] "5511999998888" "quero o tabib"
      (Or.inl rfl) (by decide) (by decide) (by decide)).1,
   (C9_lazy_context "" none 0 []
      [("phone", BVal.scalar (J.str "5511999998888")),
       ("text", BVal.scalar (J.str "quero o tabib"))] "5511999998888" "quero o tabib"
      (Or.inl rfl) (by decide) (by decide) (by decide)).2.1,
   (C9_lazy_context "" none 0 []
      [("phone", BVal.scalar (J.str "5511999998888")),
       ("text", BVal.scalar (J.str "quero o tabib"))] "5511999998888" "quero o tabib"
      (Or.inl rfl) (by decide) (by decide) (by decide)).2.2 "abandoned" "Ana"
      "Tabib Volume 2" "tabib" ""⟩

/-- Claim C10: `offer_expired` is total (the embedding cannot raise,
matching the source's swallowed exception) and returns false on an
unparseable stamp, so a corrupted stamp behaves like an absent one for
the expiry check: a checkout-stage message with no product keyword is
delegated to intent handling, never to the renewal prompt. -/
theorem C10_offer_expired_corrupt (now : Micros) (ctx : Dict) (s : String)
    (hget : dictGet ctx "offer_expires_at" = some (J.str s))
    (hparse : fromisoformat s = none) :
    offer_expired now ctx = false ∧
    (∀ (mem : Mem) (phone text : String),
      dictGetStr ctx "stage" "verify" = "checkout" →
      detect_product_key text = none →
      route_stage now mem phone ctx text =
        handle_intent now mem phone ctx text (detect_intent text)) := by
  have hexp : offer_expired now ctx = false := by
    by_cases hse : s = ""
    · subst hse
      simp [offer_expired, hget]
    · simp [offer_expired, hget, hse, hparse]
  refine ⟨hexp, ?_⟩
  intro mem phone text hstage hdpk
  simp [route_stage, hdpk, routeStageDispatch, hstage, hexp]

/-- Claim C10 witness: a context whose stamp is the unparseable string
`not-a-date` is not expired and, in checkout stage, the message `oi`
goes to intent handling. -/
theorem C10_offer_expired_corrupt_witness :
    offer_expired 0 [("stage", J.str "checkout"),
      ("offer_expires_at", J.str "not-a-date")] = false ∧
    route_stage 0 [] "p" [("stage", J.str "checkout"),
      ("offer_expires_at", J.str "not-a-date")] "oi" =
      handle_intent 0 [] "p" [("stage", J.str "checkout"),
        ("offer_expires_at", J.str "not-a-date")] "oi" (detect_intent "oi") :=
  ⟨(C10_offer_expired_corrupt 0 [("stage", J.str "checkout"),
      ("offer_expires_at", J.str "not-a-date")] "not-a-date" (by decide) (by decide)).1,
   (C10_offer_expired_corrupt 0 [("stage", J.str "checkout"),
      ("offer_expires_at", J.str "not-a-date")] "not-a-date" (by decide) (by decide)).2
     [] "p" "oi" (by decide) (by decide)⟩

end Paginatto
